import Mathlib

/-!
# EdgeSync agent: the rollout cycle of `Poller.RunOnce`

A shallow embedding of `poller.go` (the `Poller` state, the three collaborator
interfaces and `RunOnce` / `GetStatus`), of the test doubles of `poller_test.go`
and of the real link manager and store client of `integration.go` on an explicit
filesystem, followed by theorems about the rollout cycle.

Conventions of the embedding.

* A Go `error` is a value of `GoError`; the `nil` error is `none`.
* A Go result `(string, error)` is the pair `String × Option GoError`: the
  string component is whatever the callee returned, also when the error is
  non-nil.
* The collaborators are stateful.  Their combined state is a value of an
  arbitrary type `σ` that is threaded through the calls, so every deterministic
  behaviour of the three collaborators is an instance of `Collab σ`.
* `RunOnce` additionally returns the list of collaborator calls it made, in
  order (`Outcome.trace`), and the lines it handed to the logger
  (`Outcome.logs`, without the logger's timestamp).
-/

namespace EdgeSync

/-! ## Errors -/

/-- Go error values as far as the agent observes them: the text of `Error()`, the
error reached by `Unwrap()`, and the kinds package `os` tells apart.  `msg` is an
error without a wrapped cause (`errors.New`, or `fmt.Errorf` without the verb
`%w`), `wrap` is what `fmt.Errorf` builds for a format with `%w`, `errno` is a
`syscall.Errno` with its text, and `pathError` is the `*os.PathError` of a failed
file operation (or the `*os.LinkError` of a failed `os.Symlink`, with both names as
its path). -/
inductive GoError where
  | msg (text : String)
  | wrap (text : String) (inner : GoError)
  | errno (text : String)
  | pathError (op path : String) (cause : GoError)
deriving DecidableEq, Repr

/-- The method `Error()`. -/
def GoError.Error : GoError → String
  | .msg t => t
  | .wrap t _ => t
  | .errno t => t
  | .pathError op path cause => op ++ " " ++ path ++ ": " ++ cause.Error

/-- The method `Unwrap()` as seen by `errors.Unwrap`. -/
def GoError.Unwrap : GoError → Option GoError
  | .msg _ => none
  | .wrap _ inner => some inner
  | .errno _ => none
  | .pathError _ _ cause => some cause

/-- The call `fmt.Errorf(pre + "%w", err)`: the text is the format with the text of
`err` substituted, and the result wraps `err`. -/
def Errorf (pre : String) (err : GoError) : GoError :=
  .wrap (pre ++ err.Error) err

/-- Go's `strings.Contains`, on the characters of the two strings. -/
def strContains (s substr : String) : Prop :=
  substr.data <:+: s.data

instance (s substr : String) : Decidable (strContains s substr) := by
  unfold strContains; infer_instance

/-- Go's `strings.HasPrefix`, on the characters of the two strings. -/
def strHasPrefix (s pre : String) : Prop :=
  pre.data <+: s.data

instance (s pre : String) : Decidable (strHasPrefix s pre) := by
  unfold strHasPrefix; infer_instance

/-! ## Data model (`config.go`, `poller.go`) -/

/-- The struct `Config` of `config.go`. -/
structure Config where
  S3Bucket : String
  S3Key : String
  DeployScriptPath : String
deriving DecidableEq, Repr

/-- The data fields of the struct `Poller`.  The collaborators `s3`, `deploy` and
`linker` are passed to `RunOnce` as a `Collab` and a collaborator state; the mutex
`mu` appears as the events `Lock` / `Unlock` of the trace. -/
structure Poller where
  cfg : Config
  lastKnownETag : String
  activeModelPath : String
deriving DecidableEq, Repr

/-- The three interfaces `S3Client`, `Deployer` and `Linker` over a collaborator
state `σ`: every method takes the state before the call and returns its Go result
and the state after the call. -/
structure Collab (σ : Type) where
  HeadObject : σ → (bucket key : String) → (String × Option GoError) × σ
  DownloadObject : σ → (bucket key destinationPath : String) → Option GoError × σ
  Run : σ → (scriptPath : String) → (args : List String) → Option GoError × σ
  Set : σ → (target linkName : String) → Option GoError × σ
  Get : σ → (linkName : String) → (String × Option GoError) × σ

/-- One entry of the trace of a cycle: a call of a collaborator method with its
arguments, or an operation on the mutex `p.mu`. -/
inductive Event where
  | HeadObject (bucket key : String)
  | DownloadObject (bucket key destinationPath : String)
  | Run (scriptPath : String) (args : List String)
  | Set (target linkName : String)
  | Get (linkName : String)
  | Lock
  | Unlock
  | RLock
  | RUnlock
deriving DecidableEq, Repr

/-- What a call of `RunOnce` leaves behind: the returned error, the Poller and the
collaborator state after the call, the calls made and the lines logged. -/
structure Outcome (σ : Type) where
  err : Option GoError
  poller : Poller
  world : σ
  trace : List Event
  logs : List String

/-- The constructor `NewPoller`: `lastKnownETag` starts as the empty string. -/
def NewPoller (cfg : Config) (activePath : String) : Poller :=
  { cfg := cfg, lastKnownETag := "", activeModelPath := activePath }

/-- The staging path of `RunOnce`: `fmt.Sprintf("models/model-%s.bin", remoteETag)`. -/
def newModelDownloadPath (remoteETag : String) : String :=
  "models/model-" ++ remoteETag ++ ".bin"

/-- The method `RunOnce` of `poller.go`: one control cycle, on the Poller `p` and
the collaborator state `w`. -/
def RunOnce {σ : Type} (c : Collab σ) (p : Poller) (w : σ) : Outcome σ :=
  let lg0 := ["[Poller] Yeni model versiyonu kontrol ediliyor..."]
  -- 1. ADIM: ask the store for the remote ETag
  let tr1 := [Event.HeadObject p.cfg.S3Bucket p.cfg.S3Key]
  match c.HeadObject w p.cfg.S3Bucket p.cfg.S3Key with
  | ((_, some err), w1) =>
    { err := some (Errorf "S3 HeadObject hatası: " err), poller := p, world := w1,
      trace := tr1, logs := lg0 }
  | ((remoteETag, none), w1) =>
  -- 2. ADIM: compare the ETags
  if p.lastKnownETag = "" then
    { err := none, poller := { p with lastKnownETag := remoteETag }, world := w1,
      trace := tr1 ++ [Event.Lock, Event.Unlock],
      logs := lg0 ++ ["[Poller] İlk çalışma. Mevcut ETag '" ++ remoteETag ++ "' olarak ayarlandı."] }
  else if remoteETag = p.lastKnownETag then
    { err := none, poller := p, world := w1, trace := tr1,
      logs := lg0 ++ ["[Poller] Model değişmemiş. (ETag: " ++ remoteETag ++ " )"] }
  else
  -- 3. ADIM: a new model
  let lg1 := lg0 ++ ["[Poller] YENİ MODEL ALGILANDI! Eski: '" ++ p.lastKnownETag ++ "', Yeni: '"
    ++ remoteETag ++ "'"]
  let tr2 := tr1 ++ [Event.Get p.activeModelPath]
  match c.Get w1 p.activeModelPath with
  | ((oldModelTarget, errGet), w2) =>
  let lg2 := match errGet with
    | some err => lg1 ++ ["[Poller] UYARI: Rollback için eski modelin yolu okunamadı: " ++ err.Error]
    | none => lg1
  let tr3 := tr2 ++ [Event.DownloadObject p.cfg.S3Bucket p.cfg.S3Key (newModelDownloadPath remoteETag)]
  match c.DownloadObject w2 p.cfg.S3Bucket p.cfg.S3Key (newModelDownloadPath remoteETag) with
  | (some err, w3) =>
    { err := some (Errorf "S3 DownloadObject hatası: " err), poller := p, world := w3,
      trace := tr3, logs := lg2 }
  | (none, w3) =>
  let lg3 := lg2 ++ ["[Poller] Yeni model '" ++ newModelDownloadPath remoteETag
    ++ "' adresine başarıyla indirildi."]
  -- 4. ADIM: test
  let lg4 := lg3 ++ ["[Poller] Yeni model test ediliyor... (`deploy.sh --test`)"]
  let tr4 := tr3 ++ [Event.Run p.cfg.DeployScriptPath ["--test", newModelDownloadPath remoteETag]]
  match c.Run w3 p.cfg.DeployScriptPath ["--test", newModelDownloadPath remoteETag] with
  | (some err, w4) =>
    { err := some (Errorf "yeni model testi BAŞARISIZ oldu: " err), poller := p, world := w4,
      trace := tr4, logs := lg4 }
  | (none, w4) =>
  let lg5 := lg4 ++ ["[Poller] Yeni model testi BAŞARILI."]
  -- 5. ADIM: switch the symlink
  let lg6 := lg5 ++ ["[Poller] Sembolik bağ (symlink) '" ++ p.activeModelPath ++ "' -> '"
    ++ newModelDownloadPath remoteETag ++ "' olarak değiştiriliyor..."]
  let tr5 := tr4 ++ [Event.Set (newModelDownloadPath remoteETag) p.activeModelPath]
  match c.Set w4 (newModelDownloadPath remoteETag) p.activeModelPath with
  | (some err, w5) =>
    { err := some (Errorf "sembolik bağ değiştirilemedi: " err), poller := p, world := w5,
      trace := tr5, logs := lg6 }
  | (none, w5) =>
  -- 6. ADIM: reload the service
  let lg7 := lg6 ++ ["[Poller] Servis yeniden başlatılıyor... (`deploy.sh --reload`)"]
  let tr6 := tr5 ++ [Event.Run p.cfg.DeployScriptPath ["--reload"]]
  match c.Run w5 p.cfg.DeployScriptPath ["--reload"] with
  | (some err, w6) =>
    -- the reload failed: automatic rollback
    let lg8 := lg7 ++ ["[Poller] HATA! Servis yeni modelle başlatılamadı: " ++ err.Error,
      "[Poller] OTOMATİK ROLLBACK BAŞLATILIYOR..."]
    if oldModelTarget = "" then
      { err := some (GoError.msg "ROLLBACK BAŞARISIZ: Eski modelin yolu bilinmiyor"),
        poller := p, world := w6, trace := tr6, logs := lg8 }
    else
    let tr7 := tr6 ++ [Event.Set oldModelTarget p.activeModelPath]
    match c.Set w6 oldModelTarget p.activeModelPath with
    | (some errRollback, w7) =>
      { err := some (Errorf "KRİTİK HATA! Rollback sırasında sembolik bağ değiştirilemedi: "
          errRollback),
        poller := p, world := w7, trace := tr7, logs := lg8 }
    | (none, w7) =>
    let tr8 := tr7 ++ [Event.Run p.cfg.DeployScriptPath ["--reload"]]
    match c.Run w7 p.cfg.DeployScriptPath ["--reload"] with
    | (some errReloadOld, w8) =>
      { err := some (Errorf
          "KRİTİK HATA! Rollback başarılı ancak servis eski modelle de başlatılamadı: "
          errReloadOld),
        poller := p, world := w8, trace := tr8, logs := lg8 }
    | (none, w8) =>
      { err := some (Errorf "dağıtım hatası (rollback yapıldı): " err),
        poller := p, world := w8, trace := tr8,
        logs := lg8 ++ ["[Poller] ROLLBACK BAŞARILI. Sistem eski stabil modele döndü."] }
  | (none, w6) =>
    -- 7. ADIM: success
    { err := none, poller := { p with lastKnownETag := remoteETag }, world := w6,
      trace := tr6 ++ [Event.Lock, Event.Unlock],
      logs := lg7 ++ ["[Poller] DAĞITIM BAŞARILI. Yeni aktif model ETag: '" ++ remoteETag ++ "'"] }

/-- The method `GetStatus`: the known ETag, read under the read lock. -/
def GetStatus (p : Poller) : String :=
  p.lastKnownETag

/-- The method `GetStatus` in state-passing form, on the Poller `p` and the
collaborator state `w`: the returned string, and what the call leaves behind (it
returns no error; its trace is the read lock taken and released). -/
def GetStatus.outcome {σ : Type} (p : Poller) (w : σ) : String × Outcome σ :=
  (p.lastKnownETag,
    { err := none, poller := p, world := w, trace := [Event.RLock, Event.RUnlock], logs := [] })

/-! ## Projections of the trace -/

/-- The `DownloadObject` calls of a trace, as `(bucket, key, destinationPath)`. -/
def downloadCalls : List Event → List (String × String × String)
  | [] => []
  | Event.DownloadObject b k d :: tr => (b, k, d) :: downloadCalls tr
  | _ :: tr => downloadCalls tr

/-- The `Deployer.Run` calls of a trace, as `(scriptPath, args)`. -/
def runCalls : List Event → List (String × List String)
  | [] => []
  | Event.Run s args :: tr => (s, args) :: runCalls tr
  | _ :: tr => runCalls tr

/-- The `Linker.Set` calls of a trace, as `(target, linkName)`. -/
def setCalls : List Event → List (String × String)
  | [] => []
  | Event.Set t l :: tr => (t, l) :: setCalls tr
  | _ :: tr => setCalls tr

/-- The `HeadObject` calls of a trace, as `(bucket, key)`. -/
def headObjectCalls : List Event → List (String × String)
  | [] => []
  | Event.HeadObject b k :: tr => (b, k) :: headObjectCalls tr
  | _ :: tr => headObjectCalls tr

/-- The `Linker.Get` calls of a trace, by link name. -/
def getCalls : List Event → List String
  | [] => []
  | Event.Get l :: tr => l :: getCalls tr
  | _ :: tr => getCalls tr

/-- The `Run` calls of a trace in validate mode: the first argument is `--test`. -/
def validateCalls (tr : List Event) : List (String × List String) :=
  (runCalls tr).filter (fun r => r.2.head? == some "--test")

/-- The collaborator calls of a trace made while the write lock is held; `held`
tells whether the lock is held at the start of the trace. -/
def callsUnderLock : Bool → List Event → List Event
  | _, [] => []
  | _, Event.Lock :: tr => callsUnderLock true tr
  | _, Event.Unlock :: tr => callsUnderLock false tr
  | true, e :: tr => e :: callsUnderLock true tr
  | false, _ :: tr => callsUnderLock false tr

/-- The line `RunOnce` logs when the link read fails with `err`:
`log.Printf("[Poller] UYARI: Rollback için eski modelin yolu okunamadı: %v", err)`. -/
def linkReadWarning (err : GoError) : String :=
  "[Poller] UYARI: Rollback için eski modelin yolu okunamadı: " ++ err.Error

/-! ## The test doubles of `poller_test.go` -/

/-- The struct `MockS3Client`. -/
structure MockS3Client where
  EtagToReturn : String
  ErrToReturn : Option GoError
deriving DecidableEq, Repr

/-- The struct `MockDeployer`. -/
structure MockDeployer where
  FailOnArgs : List String
  Calls : List String
deriving DecidableEq, Repr

/-- The struct `MockLinker`. -/
structure MockLinker where
  CurrentTarget : String
  Calls : List String
deriving DecidableEq, Repr

/-- The three test doubles a test hands to `NewPoller`. -/
structure Mocks where
  s3 : MockS3Client
  deploy : MockDeployer
  link : MockLinker
deriving DecidableEq, Repr

/-- The method `MockS3Client.HeadObject`. -/
def MockS3Client.HeadObject (m : MockS3Client) (_bucket _key : String) :
    (String × Option GoError) × MockS3Client :=
  ((m.EtagToReturn, m.ErrToReturn), m)

/-- The method `MockS3Client.DownloadObject`. -/
def MockS3Client.DownloadObject (m : MockS3Client) (_bucket _key _destinationPath : String) :
    Option GoError × MockS3Client :=
  (m.ErrToReturn, m)

/-- The nested loops of `MockDeployer.Run`: the first `arg` of `args`, in the order
of `FailOnArgs`, that equals an entry of `FailOnArgs`. -/
def MockDeployer.failingArg (failOnArgs args : List String) : Option String :=
  failOnArgs.findSome? (fun argToFail => args.find? (fun arg => arg == argToFail))

/-- The method `MockDeployer.Run`: records the call, and fails once when an
argument is listed in `FailOnArgs`. -/
def MockDeployer.Run (m : MockDeployer) (scriptPath : String) (args : List String) :
    Option GoError × MockDeployer :=
  let call := scriptPath ++ " " ++ String.intercalate " " args
  let m1 := { m with Calls := m.Calls ++ [call] }
  match MockDeployer.failingArg m1.FailOnArgs args with
  | some arg =>
    (some (GoError.msg ("MockDeployer: '" ++ arg ++ "' argümanı için hata vermeye ayarlandı")),
      { m1 with FailOnArgs := [] })
  | none => (none, m1)

/-- The method `MockLinker.Set`. -/
def MockLinker.Set (m : MockLinker) (target linkName : String) : Option GoError × MockLinker :=
  let call := "SET " ++ linkName ++ " -> " ++ target
  (none, { m with Calls := m.Calls ++ [call], CurrentTarget := target })

/-- The method `MockLinker.Get`. -/
def MockLinker.Get (m : MockLinker) (_linkName : String) : (String × Option GoError) × MockLinker :=
  ((m.CurrentTarget, none), m)

/-- The test doubles as collaborators of `RunOnce`. -/
def mockCollab : Collab Mocks where
  HeadObject w bucket key :=
    let r := w.s3.HeadObject bucket key
    (r.1, { w with s3 := r.2 })
  DownloadObject w bucket key destinationPath :=
    let r := w.s3.DownloadObject bucket key destinationPath
    (r.1, { w with s3 := r.2 })
  Run w scriptPath args :=
    let r := w.deploy.Run scriptPath args
    (r.1, { w with deploy := r.2 })
  Set w target linkName :=
    let r := w.link.Set target linkName
    (r.1, { w with link := r.2 })
  Get w linkName :=
    let r := w.link.Get linkName
    (r.1, { w with link := r.2 })

/-- The configuration used by `TestPoller_HappyPath` and `TestPoller_RollbackPath`. -/
def mockCfg : Config :=
  { S3Bucket := "test-bucket", S3Key := "model.bin", DeployScriptPath := "deploy.sh" }

/-- The link name used by the two rollout tests. -/
def activeModelLink : String := "/var/lib/edgesync/active_model"

/-- The Poller of the two rollout tests: `NewPoller` followed by
`p.lastKnownETag = "v1-old-model"`. -/
def testPoller : Poller :=
  { NewPoller mockCfg activeModelLink with lastKnownETag := "v1-old-model" }

/-- The test doubles built by `TestPoller_HappyPath`. -/
def happyPathMocks : Mocks :=
  { s3 := { EtagToReturn := "v2-new-model", ErrToReturn := none },
    deploy := { FailOnArgs := [], Calls := [] },
    link := { CurrentTarget := "/var/lib/models/model-v1.bin", Calls := [] } }

/-- The test doubles built by `TestPoller_RollbackPath`: the deployer fails on the
argument `--reload`. -/
def rollbackPathMocks : Mocks :=
  { s3 := { EtagToReturn := "v2-new-model", ErrToReturn := none },
    deploy := { FailOnArgs := ["--reload"], Calls := [] },
    link := { CurrentTarget := "/var/lib/models/model-v1.bin", Calls := [] } }

/-- The setup and the `RunOnce` call of `TestPoller_HappyPath`. -/
def TestPoller_HappyPath : Outcome Mocks :=
  RunOnce mockCollab testPoller happyPathMocks

/-- The setup and the `RunOnce` call of `TestPoller_RollbackPath`. -/
def TestPoller_RollbackPath : Outcome Mocks :=
  RunOnce mockCollab testPoller rollbackPathMocks

/-- The test doubles of `TestPoller_RollbackPath`, with the link double left at its
zero value as in `TestPoller_NoChange` (`&MockLinker{}`): `Get` answers the empty
target and no error. -/
def emptyTargetMocks : Mocks :=
  { rollbackPathMocks with link := { CurrentTarget := "", Calls := [] } }

/-- A cycle on the Poller of the rollout tests over `emptyTargetMocks`. -/
def emptyTargetRun : Outcome Mocks :=
  RunOnce mockCollab testPoller emptyTargetMocks

/-- The test doubles of `TestPoller_HappyPath` with a deployer that fails on the
argument `--test`. -/
def validationFailureMocks : Mocks :=
  { happyPathMocks with deploy := { FailOnArgs := ["--test"], Calls := [] } }

/-- The test doubles and the Poller of `TestPoller_NoChange`: the store answers the
tag the Poller already knows. -/
def noChangeMocks : Mocks :=
  { s3 := { EtagToReturn := "v1-model", ErrToReturn := none },
    deploy := { FailOnArgs := [], Calls := [] },
    link := { CurrentTarget := "", Calls := [] } }

/-- The Poller of `TestPoller_NoChange`. -/
def noChangePoller : Poller :=
  { NewPoller { S3Bucket := "", S3Key := "", DeployScriptPath := "deploy.sh" } "" with
    lastKnownETag := "v1-model" }

/-! ## Repeated invocation (`main.go`) -/

/-- The first `n` rounds of the worker loop of `main.go`,
`for { poller.RunOnce(); time.Sleep(pollInterval) }`: the outcomes of the successive
`RunOnce` calls, each starting from the Poller and the collaborator state the
previous one left. -/
def RunTimes {σ : Type} (c : Collab σ) : Nat → Poller → σ → List (Outcome σ)
  | 0, _, _ => []
  | n + 1, p, w =>
    RunOnce c p w :: RunTimes c n (RunOnce c p w).poller (RunOnce c p w).world

/-- The collaborator state before round `i` of a loop started in `w` whose earlier
rounds made the `HeadObject` call and no other. -/
def worldAfterLookups {σ : Type} (c : Collab σ) (cfg : Config) : Nat → σ → σ
  | 0, w => w
  | i + 1, w => worldAfterLookups c cfg i (c.HeadObject w cfg.S3Bucket cfg.S3Key).2

/-! ## Scripted collaborators

Doubles for behaviours the doubles of `poller_test.go` cannot show (a failing link
read, a reload that fails twice): every method answers from a script. -/

/-- The script: the answers of `HeadObject`, `Get` and `DownloadObject`, and the
answers of the successive `Run` and `Set` calls (nil once the list is used up). -/
structure Script where
  head : String × Option GoError
  get : String × Option GoError
  download : Option GoError
  runs : List (Option GoError)
  sets : List (Option GoError)
deriving DecidableEq, Repr

/-- Collaborators answering from a `Script`. -/
def scriptCollab : Collab Script where
  HeadObject w _ _ := (w.head, w)
  DownloadObject w _ _ _ := (w.download, w)
  Run w _ _ :=
    match w.runs with
    | [] => (none, w)
    | r :: rs => (r, { w with runs := rs })
  Set w _ _ :=
    match w.sets with
    | [] => (none, w)
    | r :: rs => (r, { w with sets := rs })
  Get w _ := (w.get, w)

/-- A script in which the link read fails with the empty target and every other
call succeeds. -/
def linkReadFailureScript : Script :=
  { head := ("v2-new-model", none),
    get := ("", some (GoError.msg "readlink: no such file or directory")),
    download := none, runs := [], sets := [] }

/-- A script in which the reload fails after the switch and again after the
rollback. -/
def doubleFailureScript : Script :=
  { head := ("v2-new-model", none),
    get := ("/var/lib/models/model-v1.bin", none),
    download := none,
    runs := [none, some (GoError.msg "exit status 1"), some (GoError.msg "exit status 2")],
    sets := [] }

/-- The test doubles of `TestPoller_HappyPath` with `ErrToReturn` set on the store
double: the lookup (and any fetch) fails. -/
def lookupFailureMocks : Mocks :=
  { happyPathMocks with
    s3 := { EtagToReturn := "", ErrToReturn := some (GoError.msg "connection refused") } }

/-- A script in which the lookup answers a new tag and the fetch fails. -/
def fetchFailureScript : Script :=
  { head := ("v2-new-model", none),
    get := ("/var/lib/models/model-v1.bin", none),
    download := some (GoError.msg "unexpected EOF"), runs := [], sets := [] }

/-- The zero value `&MockS3Client{}` with the other doubles of the happy-path test:
the store answers the empty tag and no error. -/
def emptyTagMocks : Mocks :=
  { happyPathMocks with s3 := { EtagToReturn := "", ErrToReturn := none } }

/-- A store whose tag alternates between two non-empty values, with a runner and a
link manager that always succeed; the state counts the lookups. -/
def alternatingStore : Collab Nat where
  HeadObject w _ _ := ((if w % 2 = 0 then "v1-model" else "v2-model", none), w + 1)
  DownloadObject w _ _ _ := (none, w)
  Run w _ _ := (none, w)
  Set w _ _ := (none, w)
  Get w _ := (("/var/lib/models/model-v1.bin", none), w)

/-! ## A link manager with explicit link state

The link manager assumed by the link/known-version invariant: it keeps one target
per link name, a successful `Set` replaces the target of the link, a failed `Set`
changes nothing, and `Get` answers the current target (it fails, handing back the
empty string, when the link does not exist or when the read itself fails).  The
store, the runner and the faults of the link manager are arbitrary; they may look
at the links but not change them. -/

/-- The targets of the links, and the state `ρ` of everything else. -/
structure LinkWorld (ρ : Type) where
  links : String → Option String
  rest : ρ

/-- The behaviour of the store and of the runner, and the faults of the link
manager (`SetFault` and `GetFault` answer the error of the call, if it fails). -/
structure Surroundings (ρ : Type) where
  HeadObject : LinkWorld ρ → (bucket key : String) → (String × Option GoError) × ρ
  DownloadObject : LinkWorld ρ → (bucket key destinationPath : String) → Option GoError × ρ
  Run : LinkWorld ρ → (scriptPath : String) → (args : List String) → Option GoError × ρ
  SetFault : LinkWorld ρ → (target linkName : String) → Option GoError × ρ
  GetFault : LinkWorld ρ → (linkName : String) → Option GoError × ρ

/-- The collaborators made of `Surroundings` and the link manager with explicit
link state. -/
def linkCollab {ρ : Type} (b : Surroundings ρ) : Collab (LinkWorld ρ) where
  HeadObject w bucket key :=
    ((b.HeadObject w bucket key).1, { w with rest := (b.HeadObject w bucket key).2 })
  DownloadObject w bucket key destinationPath :=
    ((b.DownloadObject w bucket key destinationPath).1,
      { w with rest := (b.DownloadObject w bucket key destinationPath).2 })
  Run w scriptPath args :=
    ((b.Run w scriptPath args).1, { w with rest := (b.Run w scriptPath args).2 })
  Set w target linkName :=
    match b.SetFault w target linkName with
    | (some err, r) => (some err, { w with rest := r })
    | (none, r) =>
      (none, { links := fun l => if l = linkName then some target else w.links l, rest := r })
  Get w linkName :=
    match b.GetFault w linkName with
    | (some err, r) => (("", some err), { w with rest := r })
    | (none, r) =>
      match w.links linkName with
      | some target => ((target, none), { w with rest := r })
      | none =>
        (("", some (GoError.msg ("readlink " ++ linkName ++ ": no such file or directory"))),
          { w with rest := r })

/-- Surroundings answering from a `Script`: the store and the runner as in
`scriptCollab`, the `Set` faults from `sets`, the `Get` fault from `get`. -/
def scriptSurroundings : Surroundings Script where
  HeadObject w bucket key := scriptCollab.HeadObject w.rest bucket key
  DownloadObject w bucket key destinationPath :=
    scriptCollab.DownloadObject w.rest bucket key destinationPath
  Run w scriptPath args := scriptCollab.Run w.rest scriptPath args
  SetFault w target linkName := scriptCollab.Set w.rest target linkName
  GetFault w linkName := ((scriptCollab.Get w.rest linkName).1.2, w.rest)

/-- Links in which `activeModelLink` points at the model of version 1. -/
def linkedToV1 : String → Option String :=
  fun l => if l = activeModelLink then some "/var/lib/models/model-v1.bin" else none

/-- A script in which the reload fails after the switch and the rollback `Set`
fails too. -/
def rollbackSetFailureScript : Script :=
  { head := ("v2-new-model", none),
    get := ("", none),
    download := none,
    runs := [none, some (GoError.msg "exit status 1")],
    sets := [none, some (GoError.msg "symlink: permission denied")] }

/-- A script in which every call succeeds but the first reload. -/
def reloadFailureScript : Script :=
  { head := ("v2-new-model", none),
    get := ("", none),
    download := none,
    runs := [none, some (GoError.msg "exit status 1")],
    sets := [] }

/-- A script in which every call succeeds. -/
def allGoodScript : Script :=
  { head := ("v2-new-model", none), get := ("", none), download := none, runs := [], sets := [] }

/-- No link yet, and a script whose first reload fails. -/
def noLinkWorld : LinkWorld Script :=
  { links := fun _ => none, rest := reloadFailureScript }

/-- The link at version 1, and a script whose first reload and rollback `Set` fail. -/
def rollbackSetFailureWorld : LinkWorld Script :=
  { links := linkedToV1, rest := rollbackSetFailureScript }

/-- The link at version 1, and a script in which every call succeeds. -/
def allGoodWorld : LinkWorld Script :=
  { links := linkedToV1, rest := allGoodScript }

/-! ## The filesystem and the real collaborators (`integration.go`)

The calls of package `os` act on an explicit filesystem state.  Each call takes a
`fault`: the error with which the operating system refuses this call, if it does
(lack of permission, an I/O error, a file that is still open on a system that does
not remove open files); a refused call changes nothing. -/

/-- What a path names: a regular file with its content, or a symbolic link with its
target. -/
inductive Node where
  | file (content : String)
  | symlink (target : String)
deriving DecidableEq, Repr

/-- The filesystem: what each path names, if anything. -/
def FS : Type := String → Option Node

/-- The filesystem with `name` naming `node` (or nothing). -/
def FS.put (fs : FS) (name : String) (node : Option Node) : FS :=
  fun q => if q = name then node else fs q

/-- The error `os.ErrNotExist`. -/
def ErrNotExist : GoError := GoError.msg "file does not exist"

/-- The error number `syscall.ENOENT`. -/
def ENOENT : GoError := GoError.errno "no such file or directory"

/-- The error number `syscall.EEXIST`. -/
def EEXIST : GoError := GoError.errno "file exists"

/-- The error number `syscall.EINVAL`. -/
def EINVAL : GoError := GoError.errno "invalid argument"

/-- The error number `syscall.ELOOP`. -/
def ELOOP : GoError := GoError.errno "too many levels of symbolic links"

/-- The function `underlyingError` of package `os`: the cause of a `*PathError` or
`*LinkError`, and any other error itself (a `fmt.Errorf` wrapper is not opened). -/
def underlyingError : GoError → GoError
  | .pathError _ _ cause => cause
  | err => err

/-- The function `os.IsNotExist`: the underlying error is `os.ErrNotExist`, or the
error number `ENOENT`. -/
def IsNotExist (err : GoError) : Bool :=
  underlyingError err == ErrNotExist || underlyingError err == ENOENT

/-- The file a path leads to when symbolic links are followed, with `fuel` bounding
the number of names looked up; `none` when the links do not end within the bound.
Names are taken as written: the target of a link is looked up as the path it
spells. -/
def followLinks (fs : FS) : (fuel : Nat) → String → Option String
  | 0, _ => none
  | fuel + 1, name =>
    match fs name with
    | some (Node.symlink target) => followLinks fs fuel target
    | _ => some name

/-- The number of names looked up before a path is refused with `ELOOP`: the name
itself and at most 40 links. -/
def maxLookups : Nat := 41

/-- The call `os.Remove(name)`. -/
def osRemove (fault : Option GoError) (fs : FS) (name : String) : Option GoError × FS :=
  match fault with
  | some err => (some err, fs)
  | none =>
    match fs name with
    | none => (some (GoError.pathError "remove" name ENOENT), fs)
    | some _ => (none, fs.put name none)

/-- The call `os.Symlink(oldname, newname)`. -/
def osSymlink (fault : Option GoError) (fs : FS) (oldname newname : String) :
    Option GoError × FS :=
  match fault with
  | some err => (some err, fs)
  | none =>
    match fs newname with
    | some _ => (some (GoError.pathError "symlink" (oldname ++ " " ++ newname) EEXIST), fs)
    | none => (none, fs.put newname (some (Node.symlink oldname)))

/-- The call `os.Readlink(name)`: the empty string comes with every error. -/
def osReadlink (fault : Option GoError) (fs : FS) (name : String) : String × Option GoError :=
  match fault with
  | some err => ("", some err)
  | none =>
    match fs name with
    | some (Node.symlink target) => (target, none)
    | some (Node.file _) => ("", some (GoError.pathError "readlink" name EINVAL))
    | none => ("", some (GoError.pathError "readlink" name ENOENT))

/-- The call `os.Create(name)`: symbolic links at `name` are followed, and the file
they lead to is created, or truncated when it exists.  The result is the opened
file, given by the name it has in the filesystem (empty with an error), and the
error. -/
def osCreate (fault : Option GoError) (fs : FS) (name : String) :
    (String × Option GoError) × FS :=
  match fault with
  | some err => (("", some err), fs)
  | none =>
    match followLinks fs maxLookups name with
    | none => (("", some (GoError.pathError "open" name ELOOP)), fs)
    | some file => ((file, none), fs.put file (some (Node.file "")))

/-- What a method of a real collaborator leaves behind: the returned error, the
filesystem after the call, and every state the filesystem went through, from the
state before the call to the state after it. -/
structure FsOutcome where
  err : Option GoError
  fs : FS
  states : List FS

/-- The method `RealLinker.Set`: `os.Remove(linkName)`, return on an error other
than not-exist, then `os.Symlink(target, linkName)`. -/
def RealLinker.Set (faultRemove faultSymlink : Option GoError) (fs : FS)
    (target linkName : String) : FsOutcome :=
  match osRemove faultRemove fs linkName with
  | (err, fs1) =>
    if (match err with
        | some e => !IsNotExist e
        | none => false) then
      { err := err, fs := fs1, states := [fs, fs1] }
    else
      match osSymlink faultSymlink fs1 target linkName with
      | (err2, fs2) => { err := err2, fs := fs2, states := [fs, fs1, fs2] }

/-- The method `RealLinker.Get`. -/
def RealLinker.Get (faultReadlink : Option GoError) (fs : FS) (linkName : String) :
    String × Option GoError :=
  osReadlink faultReadlink fs linkName

/-- The method `RealS3Client.DownloadObject`.  `download bucket key` is what the
call `r.downloader.Download` does: the bytes it wrote to the opened file, and its
error. -/
def RealS3Client.DownloadObject (faultCreate : Option GoError)
    (download : String → String → String × Option GoError) (faultRemove : Option GoError)
    (fs : FS) (bucket key destinationPath : String) : FsOutcome :=
  match osCreate faultCreate fs destinationPath with
  | ((_, some err), fs1) =>
    { err := some (Errorf ("indirme hedefi oluşturulamadı (" ++ destinationPath ++ "): ") err),
      fs := fs1, states := [fs, fs1] }
  | ((file, none), fs1) =>
    match download bucket key with
    | (written, some err) =>
      -- the result of `os.Remove` is dropped
      { err := some (Errorf ("S3 DownloadObject (" ++ bucket ++ "/" ++ key ++ ") hatası: ") err),
        fs := (osRemove faultRemove (fs1.put file (some (Node.file written)))
          destinationPath).2,
        states := [fs, fs1, fs1.put file (some (Node.file written)),
          (osRemove faultRemove (fs1.put file (some (Node.file written)))
            destinationPath).2] }
    | (written, none) =>
      { err := none, fs := fs1.put file (some (Node.file written)),
        states := [fs, fs1, fs1.put file (some (Node.file written))] }

/-- A filesystem in which the link "active_model_link" of `main.go` points at the
model of version 1. -/
def linkedFS : FS :=
  fun q => if q = "active_model_link" then some (Node.symlink "models/model-v1.bin") else none

/-- A filesystem without files. -/
def emptyFS : FS := fun _ => none

/-- A download that writes part of the object and then fails. -/
def brokenDownload : String → String → String × Option GoError :=
  fun _ _ => ("PARTIAL", some (GoError.msg "unexpected EOF"))

/-- A script in which the fetch and the validation succeed and the `Set` to the
staging path fails. -/
def activationFailureScript : Script :=
  { head := ("v2-new-model", none),
    get := ("/var/lib/models/model-v1.bin", none),
    download := none, runs := [],
    sets := [some (GoError.msg "symlink: permission denied")] }

/-- A script in which the link read captures a target, the reload fails after the
switch, and the rollback `Set` back to the captured target fails. -/
def rollbackLinkFailureScript : Script :=
  { head := ("v2-new-model", none),
    get := ("/var/lib/models/model-v1.bin", none),
    download := none,
    runs := [none, some (GoError.msg "exit status 1")],
    sets := [none, some (GoError.msg "symlink: read-only file system")] }

/-- A filesystem, and a script for the store and the runner. -/
structure RealLinkWorld where
  fs : FS
  script : Script

/-- The collaborators with the link manager `main.go` wires in: `RealLinker` on the
filesystem, no call refused by the operating system; the store and the runner
answer from the script as in `scriptCollab`. -/
def realLinkerCollab : Collab RealLinkWorld where
  HeadObject w bucket key :=
    ((scriptCollab.HeadObject w.script bucket key).1,
      { w with script := (scriptCollab.HeadObject w.script bucket key).2 })
  DownloadObject w bucket key destinationPath :=
    ((scriptCollab.DownloadObject w.script bucket key destinationPath).1,
      { w with script := (scriptCollab.DownloadObject w.script bucket key destinationPath).2 })
  Run w scriptPath args :=
    ((scriptCollab.Run w.script scriptPath args).1,
      { w with script := (scriptCollab.Run w.script scriptPath args).2 })
  Set w target linkName :=
    ((RealLinker.Set none none w.fs target linkName).err,
      { w with fs := (RealLinker.Set none none w.fs target linkName).fs })
  Get w linkName := (RealLinker.Get none w.fs linkName, w)

/-- No link on the filesystem yet, and a script whose first reload fails. -/
def noLinkYetWorld : RealLinkWorld :=
  { fs := emptyFS, script := reloadFailureScript }

/-! ## Auxiliary facts on strings -/

theorem strContains_append_right {s substr : String} (t : String) (h : strContains s substr) :
    strContains (s ++ t) substr := by
  unfold strContains at *
  rw [String.data_append]
  exact h.trans ⟨[], t.data, by simp⟩

theorem strHasPrefix_append (pre t : String) : strHasPrefix (pre ++ t) pre := by
  unfold strHasPrefix
  rw [String.data_append]
  exact List.prefix_append _ _

/-! ## The rollout cycle -/

/-- C1 (happy path).  Known version `K` non-empty, the store answers a tag `R`
different from `K`, and every collaborator call of the cycle succeeds.  Then
`RunOnce` returns nil; its trace is the lookup, the link read, one
`DownloadObject(cfg.S3Bucket, cfg.S3Key, P)`, `Run(script, "--test", P)`, one
`Set(P, activeModelPath)` and `Run(script, "--reload")`, in this order, followed by
the locked update; and `lastKnownETag` is `R` afterwards.  Here `P` is the staging
path `newModelDownloadPath R`. -/
theorem RunOnce_happy_path {σ : Type} (c : Collab σ) (cfg : Config)
    (activeModelPath K R oldModelTarget : String) (w0 w1 w2 w3 w4 w5 w6 : σ)
    (hK : K ≠ "") (hR : R ≠ K)
    (hHead : c.HeadObject w0 cfg.S3Bucket cfg.S3Key = ((R, none), w1))
    (hGet : c.Get w1 activeModelPath = ((oldModelTarget, none), w2))
    (hDownload : c.DownloadObject w2 cfg.S3Bucket cfg.S3Key (newModelDownloadPath R) = (none, w3))
    (hTest : c.Run w3 cfg.DeployScriptPath ["--test", newModelDownloadPath R] = (none, w4))
    (hSet : c.Set w4 (newModelDownloadPath R) activeModelPath = (none, w5))
    (hReload : c.Run w5 cfg.DeployScriptPath ["--reload"] = (none, w6)) :
    (RunOnce c ⟨cfg, K, activeModelPath⟩ w0).err = none ∧
    (RunOnce c ⟨cfg, K, activeModelPath⟩ w0).trace
      = [Event.HeadObject cfg.S3Bucket cfg.S3Key, Event.Get activeModelPath,
         Event.DownloadObject cfg.S3Bucket cfg.S3Key (newModelDownloadPath R),
         Event.Run cfg.DeployScriptPath ["--test", newModelDownloadPath R],
         Event.Set (newModelDownloadPath R) activeModelPath,
         Event.Run cfg.DeployScriptPath ["--reload"], Event.Lock, Event.Unlock] ∧
    downloadCalls (RunOnce c ⟨cfg, K, activeModelPath⟩ w0).trace
      = [(cfg.S3Bucket, cfg.S3Key, newModelDownloadPath R)] ∧
    runCalls (RunOnce c ⟨cfg, K, activeModelPath⟩ w0).trace
      = [(cfg.DeployScriptPath, ["--test", newModelDownloadPath R]),
         (cfg.DeployScriptPath, ["--reload"])] ∧
    setCalls (RunOnce c ⟨cfg, K, activeModelPath⟩ w0).trace
      = [(newModelDownloadPath R, activeModelPath)] ∧
    (RunOnce c ⟨cfg, K, activeModelPath⟩ w0).poller.lastKnownETag = R := by
  simp [RunOnce, hHead, hGet, hDownload, hTest, hSet, hReload, hK, hR, downloadCalls,
    runCalls, setCalls]

/-- Witness of C1: the run of `TestPoller_HappyPath`. -/
theorem RunOnce_happy_path_witness :
    ("v1-old-model" ≠ "" ∧ "v2-new-model" ≠ "v1-old-model") ∧
    TestPoller_HappyPath.err = none ∧
    TestPoller_HappyPath.trace
      = [Event.HeadObject "test-bucket" "model.bin", Event.Get activeModelLink,
         Event.DownloadObject "test-bucket" "model.bin" (newModelDownloadPath "v2-new-model"),
         Event.Run "deploy.sh" ["--test", newModelDownloadPath "v2-new-model"],
         Event.Set (newModelDownloadPath "v2-new-model") activeModelLink,
         Event.Run "deploy.sh" ["--reload"], Event.Lock, Event.Unlock] ∧
    downloadCalls TestPoller_HappyPath.trace
      = [("test-bucket", "model.bin", newModelDownloadPath "v2-new-model")] ∧
    runCalls TestPoller_HappyPath.trace
      = [("deploy.sh", ["--test", newModelDownloadPath "v2-new-model"]),
         ("deploy.sh", ["--reload"])] ∧
    setCalls TestPoller_HappyPath.trace
      = [(newModelDownloadPath "v2-new-model", activeModelLink)] ∧
    TestPoller_HappyPath.poller.lastKnownETag = "v2-new-model" :=
  ⟨⟨by decide, by decide⟩,
   RunOnce_happy_path mockCollab mockCfg activeModelLink "v1-old-model" "v2-new-model" _
    happyPathMocks _ _ _ _ _ _ (by decide) (by decide) rfl rfl rfl rfl rfl rfl⟩

/-- C2, as stated, fails when the link read succeeds with the empty target.  Over
the test doubles with `CurrentTarget = ""` the read answers `("", nil)`, the fetch,
the validation and the switch succeed and the reload fails; a rollback `Set` and a
further reload would both succeed.  Yet `RunOnce` makes one `Set` call and two
`Run` calls only, and returns the rollback-unavailable error, whose text does not
contain "rollback yapıldı". -/
theorem RunOnce_rollback_empty_target :
    ("v1-old-model" ≠ "" ∧ "v2-new-model" ≠ "v1-old-model") ∧
    (mockCollab.Get emptyTargetMocks activeModelLink).1 = ("", none) ∧
    (mockCollab.Set emptyTargetRun.world "" activeModelLink).1 = none ∧
    (mockCollab.Run (mockCollab.Set emptyTargetRun.world "" activeModelLink).2
      "deploy.sh" ["--reload"]).1 = none ∧
    emptyTargetRun.trace
      = [Event.HeadObject "test-bucket" "model.bin", Event.Get activeModelLink,
         Event.DownloadObject "test-bucket" "model.bin" "models/model-v2-new-model.bin",
         Event.Run "deploy.sh" ["--test", "models/model-v2-new-model.bin"],
         Event.Set "models/model-v2-new-model.bin" activeModelLink,
         Event.Run "deploy.sh" ["--reload"]] ∧
    setCalls emptyTargetRun.trace = [("models/model-v2-new-model.bin", activeModelLink)] ∧
    (runCalls emptyTargetRun.trace).length = 2 ∧
    emptyTargetRun.err = some (GoError.msg "ROLLBACK BAŞARISIZ: Eski modelin yolu bilinmiyor") ∧
    ¬ strContains "ROLLBACK BAŞARISIZ: Eski modelin yolu bilinmiyor" "rollback yapıldı" := by
  decide

/-- C2 (rollback path), amended: the target `T0` read before the switch is not
empty.  Known version `K` non-empty, remote tag `R` different from `K`, the link
read answers `T0`, the fetch, the validation and the switch succeed, the reload
fails with `err`, and the rollback `Set` and the second reload succeed.  Then
`RunOnce` makes two `Set` calls, to the staging path of `R` and then to `T0`, three
`Run` calls (validate, reload, reload), leaves `lastKnownETag = K`, and returns
the error wrapping `err` whose text contains "rollback yapıldı". -/
theorem RunOnce_rollback_path {σ : Type} (c : Collab σ) (cfg : Config)
    (activeModelPath K R T0 : String) (err : GoError) (w0 w1 w2 w3 w4 w5 w6 w7 w8 : σ)
    (hK : K ≠ "") (hR : R ≠ K) (hT0 : T0 ≠ "")
    (hHead : c.HeadObject w0 cfg.S3Bucket cfg.S3Key = ((R, none), w1))
    (hGet : c.Get w1 activeModelPath = ((T0, none), w2))
    (hDownload : c.DownloadObject w2 cfg.S3Bucket cfg.S3Key (newModelDownloadPath R) = (none, w3))
    (hTest : c.Run w3 cfg.DeployScriptPath ["--test", newModelDownloadPath R] = (none, w4))
    (hSet : c.Set w4 (newModelDownloadPath R) activeModelPath = (none, w5))
    (hReload : c.Run w5 cfg.DeployScriptPath ["--reload"] = (some err, w6))
    (hSetOld : c.Set w6 T0 activeModelPath = (none, w7))
    (hReloadOld : c.Run w7 cfg.DeployScriptPath ["--reload"] = (none, w8)) :
    setCalls (RunOnce c ⟨cfg, K, activeModelPath⟩ w0).trace
      = [(newModelDownloadPath R, activeModelPath), (T0, activeModelPath)] ∧
    runCalls (RunOnce c ⟨cfg, K, activeModelPath⟩ w0).trace
      = [(cfg.DeployScriptPath, ["--test", newModelDownloadPath R]),
         (cfg.DeployScriptPath, ["--reload"]), (cfg.DeployScriptPath, ["--reload"])] ∧
    (RunOnce c ⟨cfg, K, activeModelPath⟩ w0).poller.lastKnownETag = K ∧
    (RunOnce c ⟨cfg, K, activeModelPath⟩ w0).err
      = some (Errorf "dağıtım hatası (rollback yapıldı): " err) ∧
    strContains (Errorf "dağıtım hatası (rollback yapıldı): " err).Error "rollback yapıldı" := by
  refine ⟨?_, ?_, ?_, ?_, ?_⟩
  · simp [RunOnce, hHead, hGet, hDownload, hTest, hSet, hReload, hSetOld, hReloadOld, hK, hR,
      hT0, setCalls]
  · simp [RunOnce, hHead, hGet, hDownload, hTest, hSet, hReload, hSetOld, hReloadOld, hK, hR,
      hT0, runCalls]
  · simp [RunOnce, hHead, hGet, hDownload, hTest, hSet, hReload, hSetOld, hReloadOld, hK, hR,
      hT0]
  · simp [RunOnce, hHead, hGet, hDownload, hTest, hSet, hReload, hSetOld, hReloadOld, hK, hR,
      hT0]
  · exact strContains_append_right _ (by decide)

/-- Witness of the amended C2: the run of `TestPoller_RollbackPath`. -/
theorem RunOnce_rollback_path_witness :
    ("v1-old-model" ≠ "" ∧ "v2-new-model" ≠ "v1-old-model" ∧
      "/var/lib/models/model-v1.bin" ≠ "") ∧
    setCalls TestPoller_RollbackPath.trace
      = [(newModelDownloadPath "v2-new-model", activeModelLink),
         ("/var/lib/models/model-v1.bin", activeModelLink)] ∧
    runCalls TestPoller_RollbackPath.trace
      = [("deploy.sh", ["--test", newModelDownloadPath "v2-new-model"]),
         ("deploy.sh", ["--reload"]), ("deploy.sh", ["--reload"])] ∧
    TestPoller_RollbackPath.poller.lastKnownETag = "v1-old-model" ∧
    TestPoller_RollbackPath.err
      = some (Errorf "dağıtım hatası (rollback yapıldı): "
          (GoError.msg "MockDeployer: '--reload' argümanı için hata vermeye ayarlandı")) ∧
    strContains (Errorf "dağıtım hatası (rollback yapıldı): "
      (GoError.msg "MockDeployer: '--reload' argümanı için hata vermeye ayarlandı")).Error
      "rollback yapıldı" :=
  ⟨⟨by decide, by decide, by decide⟩,
   RunOnce_rollback_path mockCollab mockCfg activeModelLink "v1-old-model" "v2-new-model"
    "/var/lib/models/model-v1.bin" _ rollbackPathMocks _ _ _ _ _ _ _ _
    (by decide) (by decide) (by decide) rfl rfl rfl rfl rfl rfl rfl rfl⟩

/-- C3 (a failed attempt is never recorded).  For every Poller, every collaborator
behaviour and every collaborator state: when `RunOnce` returns a non-nil error,
`lastKnownETag` after the call is `lastKnownETag` before the call (the Poller is
unchanged altogether). -/
theorem RunOnce_error_keeps_lastKnownETag {σ : Type} (c : Collab σ) (p : Poller) (w : σ)
    (h : (RunOnce c p w).err ≠ none) :
    (RunOnce c p w).poller.lastKnownETag = p.lastKnownETag ∧ (RunOnce c p w).poller = p := by
  revert h
  unfold RunOnce
  simp only []
  repeat' split
  all_goals simp

/-- Witness of C3: the failing cycle of `TestPoller_RollbackPath`. -/
theorem RunOnce_error_keeps_lastKnownETag_witness :
    TestPoller_RollbackPath.err ≠ none ∧
    TestPoller_RollbackPath.poller.lastKnownETag = "v1-old-model" ∧
    TestPoller_RollbackPath.poller = testPoller :=
  ⟨by decide, RunOnce_error_keeps_lastKnownETag mockCollab testPoller rollbackPathMocks (by decide)⟩

/-- C4 (validation is a pure gate).  Known version `K` non-empty, remote tag `R`
different from `K`, whatever the link read answers: when the fetch succeeds and
`Run(script, "--test", P)` fails with `err`, `RunOnce` makes no `Set` call and no
reload run (its only `Run` call is the validation), leaves `lastKnownETag = K`, and
returns an error that wraps `err` and whose text starts with
"yeni model testi BAŞARISIZ oldu" (the new model's test failed). -/
theorem RunOnce_validation_gate {σ : Type} (c : Collab σ) (cfg : Config)
    (activeModelPath K R oldModelTarget : String) (errGet : Option GoError) (err : GoError)
    (w0 w1 w2 w3 w4 : σ)
    (hK : K ≠ "") (hR : R ≠ K)
    (hHead : c.HeadObject w0 cfg.S3Bucket cfg.S3Key = ((R, none), w1))
    (hGet : c.Get w1 activeModelPath = ((oldModelTarget, errGet), w2))
    (hDownload : c.DownloadObject w2 cfg.S3Bucket cfg.S3Key (newModelDownloadPath R) = (none, w3))
    (hTest : c.Run w3 cfg.DeployScriptPath ["--test", newModelDownloadPath R] = (some err, w4)) :
    setCalls (RunOnce c ⟨cfg, K, activeModelPath⟩ w0).trace = [] ∧
    runCalls (RunOnce c ⟨cfg, K, activeModelPath⟩ w0).trace
      = [(cfg.DeployScriptPath, ["--test", newModelDownloadPath R])] ∧
    (RunOnce c ⟨cfg, K, activeModelPath⟩ w0).poller.lastKnownETag = K ∧
    (RunOnce c ⟨cfg, K, activeModelPath⟩ w0).err
      = some (Errorf "yeni model testi BAŞARISIZ oldu: " err) ∧
    (Errorf "yeni model testi BAŞARISIZ oldu: " err).Unwrap = some err ∧
    strHasPrefix (Errorf "yeni model testi BAŞARISIZ oldu: " err).Error
      "yeni model testi BAŞARISIZ oldu" := by
  refine ⟨?_, ?_, ?_, ?_, rfl, ?_⟩
  · simp [RunOnce, hHead, hGet, hDownload, hTest, hK, hR, setCalls]
  · simp [RunOnce, hHead, hGet, hDownload, hTest, hK, hR, runCalls]
  · simp [RunOnce, hHead, hGet, hDownload, hTest, hK, hR]
  · simp [RunOnce, hHead, hGet, hDownload, hTest, hK, hR]
  · have h : strHasPrefix "yeni model testi BAŞARISIZ oldu: " "yeni model testi BAŞARISIZ oldu" := by
      decide
    unfold strHasPrefix at *
    simp only [Errorf, GoError.Error, String.data_append]
    exact h.trans (List.prefix_append _ _)

/-- Witness of C4: the doubles of the happy-path test with a deployer failing on
`--test`. -/
theorem RunOnce_validation_gate_witness :
    ("v1-old-model" ≠ "" ∧ "v2-new-model" ≠ "v1-old-model") ∧
    setCalls (RunOnce mockCollab testPoller validationFailureMocks).trace = [] ∧
    runCalls (RunOnce mockCollab testPoller validationFailureMocks).trace
      = [("deploy.sh", ["--test", newModelDownloadPath "v2-new-model"])] ∧
    (RunOnce mockCollab testPoller validationFailureMocks).poller.lastKnownETag
      = "v1-old-model" ∧
    (RunOnce mockCollab testPoller validationFailureMocks).err
      = some (Errorf "yeni model testi BAŞARISIZ oldu: "
          (GoError.msg "MockDeployer: '--test' argümanı için hata vermeye ayarlandı")) ∧
    (Errorf "yeni model testi BAŞARISIZ oldu: "
        (GoError.msg "MockDeployer: '--test' argümanı için hata vermeye ayarlandı")).Unwrap
      = some (GoError.msg "MockDeployer: '--test' argümanı için hata vermeye ayarlandı") ∧
    strHasPrefix (Errorf "yeni model testi BAŞARISIZ oldu: "
        (GoError.msg "MockDeployer: '--test' argümanı için hata vermeye ayarlandı")).Error
      "yeni model testi BAŞARISIZ oldu" :=
  ⟨⟨by decide, by decide⟩,
   RunOnce_validation_gate mockCollab mockCfg activeModelLink "v1-old-model" "v2-new-model" _ _ _
    validationFailureMocks _ _ _ _ (by decide) (by decide) rfl rfl rfl rfl⟩

/-- C5 (cold start).  On a freshly constructed Poller, when `HeadObject` succeeds
with the tag `T1`, `RunOnce` returns nil, records `T1` as `lastKnownETag`, and makes
no `DownloadObject`, no `Run` and no `Set` call. -/
theorem RunOnce_cold_start {σ : Type} (c : Collab σ) (cfg : Config)
    (activePath T1 : String) (w0 w1 : σ)
    (hHead : c.HeadObject w0 cfg.S3Bucket cfg.S3Key = ((T1, none), w1)) :
    (RunOnce c (NewPoller cfg activePath) w0).err = none ∧
    (RunOnce c (NewPoller cfg activePath) w0).poller.lastKnownETag = T1 ∧
    GetStatus (RunOnce c (NewPoller cfg activePath) w0).poller = T1 ∧
    downloadCalls (RunOnce c (NewPoller cfg activePath) w0).trace = [] ∧
    runCalls (RunOnce c (NewPoller cfg activePath) w0).trace = [] ∧
    setCalls (RunOnce c (NewPoller cfg activePath) w0).trace = [] := by
  simp [RunOnce, NewPoller, GetStatus, hHead, downloadCalls, runCalls, setCalls]

/-- Witness of C5: a fresh Poller over the doubles of the happy-path test. -/
theorem RunOnce_cold_start_witness :
    (RunOnce mockCollab (NewPoller mockCfg activeModelLink) happyPathMocks).err = none ∧
    (RunOnce mockCollab (NewPoller mockCfg activeModelLink) happyPathMocks).poller.lastKnownETag
      = "v2-new-model" ∧
    GetStatus (RunOnce mockCollab (NewPoller mockCfg activeModelLink) happyPathMocks).poller
      = "v2-new-model" ∧
    downloadCalls (RunOnce mockCollab (NewPoller mockCfg activeModelLink) happyPathMocks).trace
      = [] ∧
    runCalls (RunOnce mockCollab (NewPoller mockCfg activeModelLink) happyPathMocks).trace = [] ∧
    setCalls (RunOnce mockCollab (NewPoller mockCfg activeModelLink) happyPathMocks).trace = [] :=
  RunOnce_cold_start mockCollab mockCfg activeModelLink "v2-new-model" happyPathMocks _ rfl

/-- One steady-state cycle: the known version is `T1` and the store answers `T1`.
The cycle returns nil, leaves the Poller as it is, and its only collaborator call is
the lookup. -/
theorem RunOnce_steady {σ : Type} (c : Collab σ) (cfg : Config) (activePath T1 : String)
    (w : σ) (h : (c.HeadObject w cfg.S3Bucket cfg.S3Key).1 = (T1, none)) :
    (RunOnce c ⟨cfg, T1, activePath⟩ w).err = none ∧
    (RunOnce c ⟨cfg, T1, activePath⟩ w).poller = ⟨cfg, T1, activePath⟩ ∧
    (RunOnce c ⟨cfg, T1, activePath⟩ w).world = (c.HeadObject w cfg.S3Bucket cfg.S3Key).2 ∧
    downloadCalls (RunOnce c ⟨cfg, T1, activePath⟩ w).trace = [] ∧
    runCalls (RunOnce c ⟨cfg, T1, activePath⟩ w).trace = [] ∧
    setCalls (RunOnce c ⟨cfg, T1, activePath⟩ w).trace = [] := by
  rcases hh : c.HeadObject w cfg.S3Bucket cfg.S3Key with ⟨⟨t, e⟩, w1⟩
  rw [hh] at h
  simp only [Prod.mk.injEq] at h
  obtain ⟨rfl, rfl⟩ := h
  by_cases hT : t = ""
  · subst hT
    simp [RunOnce, hh, downloadCalls, runCalls, setCalls]
  · simp [RunOnce, hh, hT, downloadCalls, runCalls, setCalls]

/-- C6 (steady-state idempotence).  Known version `T1`; in each of `n` successive
invocations `HeadObject` answers `T1`.  Then there are `n` outcomes, and each
invocation returns nil, makes no `DownloadObject`, `Run` or `Set` call, and leaves
`lastKnownETag = T1`. -/
theorem RunTimes_steady_state {σ : Type} (c : Collab σ) (cfg : Config)
    (activePath T1 : String) (n : Nat) (w : σ)
    (hHead : ∀ i, i < n →
      (c.HeadObject (worldAfterLookups c cfg i w) cfg.S3Bucket cfg.S3Key).1 = (T1, none)) :
    (RunTimes c n ⟨cfg, T1, activePath⟩ w).length = n ∧
    ∀ o ∈ RunTimes c n ⟨cfg, T1, activePath⟩ w,
      o.err = none ∧ downloadCalls o.trace = [] ∧ runCalls o.trace = [] ∧
      setCalls o.trace = [] ∧ o.poller.lastKnownETag = T1 := by
  induction n generalizing w with
  | zero => simp [RunTimes]
  | succ n ih =>
    obtain ⟨h1, h2, h3, h4, h5, h6⟩ :=
      RunOnce_steady c cfg activePath T1 w (hHead 0 (Nat.succ_pos n))
    have ih1 := ih (c.HeadObject w cfg.S3Bucket cfg.S3Key).2
      (fun i hi => hHead (i + 1) (Nat.succ_lt_succ hi))
    simp only [RunTimes, h2, h3, List.length_cons, List.mem_cons]
    refine ⟨by rw [ih1.1], ?_⟩
    intro o ho
    rcases ho with rfl | ho
    · exact ⟨h1, h4, h5, h6, by rw [h2]⟩
    · exact ih1.2 o ho

/-- Witness of C6: three rounds over the doubles of `TestPoller_NoChange`. -/
theorem RunTimes_steady_state_witness :
    (RunTimes mockCollab 3 noChangePoller noChangeMocks).length = 3 ∧
    ∀ o ∈ RunTimes mockCollab 3 noChangePoller noChangeMocks,
      o.err = none ∧ downloadCalls o.trace = [] ∧ runCalls o.trace = [] ∧
      setCalls o.trace = [] ∧ o.poller.lastKnownETag = "v1-model" :=
  RunTimes_steady_state mockCollab noChangePoller.cfg "" "v1-model" 3 noChangeMocks (by decide)

/-- The text of an error built by `Errorf`. -/
theorem Errorf_Error (pre : String) (err : GoError) :
    (Errorf pre err).Error = pre ++ err.Error := rfl

/-- The text of a rollback-succeeded error never starts with "KRİTİK HATA!". -/
theorem rollback_done_text_not_critical (t : String) :
    ¬ strHasPrefix ("dağıtım hatası (rollback yapıldı): " ++ t) "KRİTİK HATA!" := by
  unfold strHasPrefix
  rw [String.data_append]
  have h1 : "KRİTİK HATA!".data = 'K' :: "RİTİK HATA!".data := rfl
  have h2 : "dağıtım hatası (rollback yapıldı): ".data
      = 'd' :: "ağıtım hatası (rollback yapıldı): ".data := rfl
  rw [h1, h2, List.cons_append]
  intro h
  exact absurd (List.cons_prefix_cons.mp h).1 (by decide)

/-- The text of a double-failure error starts with "KRİTİK HATA!". -/
theorem double_failure_text_critical (t : String) :
    strHasPrefix
      ("KRİTİK HATA! Rollback başarılı ancak servis eski modelle de başlatılamadı: " ++ t)
      "KRİTİK HATA!" := by
  have h : strHasPrefix
      "KRİTİK HATA! Rollback başarılı ancak servis eski modelle de başlatılamadı: "
      "KRİTİK HATA!" := by decide
  unfold strHasPrefix at *
  rw [String.data_append]
  exact h.trans (List.prefix_append _ _)

/-- The cycle that ends in a double failure: the reload fails with `err`, the
rollback `Set` to the non-empty captured target succeeds, the rollback reload fails
with `errReloadOld`. -/
theorem RunOnce_double_failure {σ : Type} (c : Collab σ) (cfg : Config)
    (activeModelPath K R T0 : String) (errGet : Option GoError) (err errReloadOld : GoError)
    (w0 w1 w2 w3 w4 w5 w6 w7 w8 : σ)
    (hK : K ≠ "") (hR : R ≠ K) (hT0 : T0 ≠ "")
    (hHead : c.HeadObject w0 cfg.S3Bucket cfg.S3Key = ((R, none), w1))
    (hGet : c.Get w1 activeModelPath = ((T0, errGet), w2))
    (hDownload : c.DownloadObject w2 cfg.S3Bucket cfg.S3Key (newModelDownloadPath R) = (none, w3))
    (hTest : c.Run w3 cfg.DeployScriptPath ["--test", newModelDownloadPath R] = (none, w4))
    (hSet : c.Set w4 (newModelDownloadPath R) activeModelPath = (none, w5))
    (hReload : c.Run w5 cfg.DeployScriptPath ["--reload"] = (some err, w6))
    (hSetOld : c.Set w6 T0 activeModelPath = (none, w7))
    (hReloadOld : c.Run w7 cfg.DeployScriptPath ["--reload"] = (some errReloadOld, w8)) :
    (RunOnce c ⟨cfg, K, activeModelPath⟩ w0).err
      = some (Errorf "KRİTİK HATA! Rollback başarılı ancak servis eski modelle de başlatılamadı: "
          errReloadOld) := by
  simp [RunOnce, hHead, hGet, hDownload, hTest, hSet, hReload, hSetOld, hReloadOld, hK, hR, hT0]

/-- The cycle that ends in a completed rollback, whatever the link read reported
next to its non-empty target. -/
theorem RunOnce_rollback_done {σ : Type} (c : Collab σ) (cfg : Config)
    (activeModelPath K R T0 : String) (errGet : Option GoError) (err : GoError)
    (w0 w1 w2 w3 w4 w5 w6 w7 w8 : σ)
    (hK : K ≠ "") (hR : R ≠ K) (hT0 : T0 ≠ "")
    (hHead : c.HeadObject w0 cfg.S3Bucket cfg.S3Key = ((R, none), w1))
    (hGet : c.Get w1 activeModelPath = ((T0, errGet), w2))
    (hDownload : c.DownloadObject w2 cfg.S3Bucket cfg.S3Key (newModelDownloadPath R) = (none, w3))
    (hTest : c.Run w3 cfg.DeployScriptPath ["--test", newModelDownloadPath R] = (none, w4))
    (hSet : c.Set w4 (newModelDownloadPath R) activeModelPath = (none, w5))
    (hReload : c.Run w5 cfg.DeployScriptPath ["--reload"] = (some err, w6))
    (hSetOld : c.Set w6 T0 activeModelPath = (none, w7))
    (hReloadOld : c.Run w7 cfg.DeployScriptPath ["--reload"] = (none, w8)) :
    (RunOnce c ⟨cfg, K, activeModelPath⟩ w0).err
      = some (Errorf "dağıtım hatası (rollback yapıldı): " err) := by
  simp [RunOnce, hHead, hGet, hDownload, hTest, hSet, hReload, hSetOld, hReloadOld, hK, hR, hT0]

/-- C7 (double failure is distinguishable).  Take any cycle `A` in which the reload
after the switch fails, the rollback `Set` succeeds and the rollback reload fails
too, and any cycle `B` in which the reload after the switch fails, the rollback
`Set` succeeds and the rollback reload succeeds.  Whatever errors the runner
returned, both cycles return an error; the two errors differ, their texts differ,
and the fixed opening "KRİTİK HATA!" of the text tells them apart: the
double-failure text starts with it, the rollback-succeeded text does not. -/
theorem RunOnce_double_failure_distinguishable {σ τ : Type}
    (c : Collab σ) (cfg : Config) (activeModelPath K R T0 : String)
    (errGet : Option GoError) (err errReloadOld : GoError) (w0 w1 w2 w3 w4 w5 w6 w7 w8 : σ)
    (hK : K ≠ "") (hR : R ≠ K) (hT0 : T0 ≠ "")
    (hHead : c.HeadObject w0 cfg.S3Bucket cfg.S3Key = ((R, none), w1))
    (hGet : c.Get w1 activeModelPath = ((T0, errGet), w2))
    (hDownload : c.DownloadObject w2 cfg.S3Bucket cfg.S3Key (newModelDownloadPath R) = (none, w3))
    (hTest : c.Run w3 cfg.DeployScriptPath ["--test", newModelDownloadPath R] = (none, w4))
    (hSet : c.Set w4 (newModelDownloadPath R) activeModelPath = (none, w5))
    (hReload : c.Run w5 cfg.DeployScriptPath ["--reload"] = (some err, w6))
    (hSetOld : c.Set w6 T0 activeModelPath = (none, w7))
    (hReloadOld : c.Run w7 cfg.DeployScriptPath ["--reload"] = (some errReloadOld, w8))
    (d : Collab τ) (cfgB : Config) (activeModelPathB KB RB T0B : String)
    (errGetB : Option GoError) (errB : GoError) (v0 v1 v2 v3 v4 v5 v6 v7 v8 : τ)
    (hKB : KB ≠ "") (hRB : RB ≠ KB) (hT0B : T0B ≠ "")
    (hHeadB : d.HeadObject v0 cfgB.S3Bucket cfgB.S3Key = ((RB, none), v1))
    (hGetB : d.Get v1 activeModelPathB = ((T0B, errGetB), v2))
    (hDownloadB :
      d.DownloadObject v2 cfgB.S3Bucket cfgB.S3Key (newModelDownloadPath RB) = (none, v3))
    (hTestB : d.Run v3 cfgB.DeployScriptPath ["--test", newModelDownloadPath RB] = (none, v4))
    (hSetB : d.Set v4 (newModelDownloadPath RB) activeModelPathB = (none, v5))
    (hReloadB : d.Run v5 cfgB.DeployScriptPath ["--reload"] = (some errB, v6))
    (hSetOldB : d.Set v6 T0B activeModelPathB = (none, v7))
    (hReloadOldB : d.Run v7 cfgB.DeployScriptPath ["--reload"] = (none, v8)) :
    ∃ eA eB : GoError,
      (RunOnce c ⟨cfg, K, activeModelPath⟩ w0).err = some eA ∧
      (RunOnce d ⟨cfgB, KB, activeModelPathB⟩ v0).err = some eB ∧
      eA ≠ eB ∧ eA.Error ≠ eB.Error ∧
      strHasPrefix eA.Error "KRİTİK HATA!" ∧ ¬ strHasPrefix eB.Error "KRİTİK HATA!" := by
  have hA := RunOnce_double_failure c cfg activeModelPath K R T0 errGet err errReloadOld
    w0 w1 w2 w3 w4 w5 w6 w7 w8 hK hR hT0 hHead hGet hDownload hTest hSet hReload hSetOld
    hReloadOld
  have hB := RunOnce_rollback_done d cfgB activeModelPathB KB RB T0B errGetB errB
    v0 v1 v2 v3 v4 v5 v6 v7 v8 hKB hRB hT0B hHeadB hGetB hDownloadB hTestB hSetB hReloadB
    hSetOldB hReloadOldB
  have hpA := double_failure_text_critical errReloadOld.Error
  have hpB := rollback_done_text_not_critical errB.Error
  have htext : (Errorf
      "KRİTİK HATA! Rollback başarılı ancak servis eski modelle de başlatılamadı: "
      errReloadOld).Error ≠ (Errorf "dağıtım hatası (rollback yapıldı): " errB).Error := by
    intro h
    rw [Errorf_Error, Errorf_Error] at h
    rw [h] at hpA
    exact hpB hpA
  exact ⟨_, _, hA, hB, fun h => htext (congrArg GoError.Error h), htext, hpA, hpB⟩

/-- Witness of C7: cycle `A` over a script whose reload fails twice, cycle `B` the
run of `TestPoller_RollbackPath`. -/
theorem RunOnce_double_failure_distinguishable_witness :
    ∃ eA eB : GoError,
      (RunOnce scriptCollab testPoller doubleFailureScript).err = some eA ∧
      TestPoller_RollbackPath.err = some eB ∧
      eA ≠ eB ∧ eA.Error ≠ eB.Error ∧
      strHasPrefix eA.Error "KRİTİK HATA!" ∧ ¬ strHasPrefix eB.Error "KRİTİK HATA!" :=
  RunOnce_double_failure_distinguishable
    scriptCollab mockCfg activeModelLink "v1-old-model" "v2-new-model"
    "/var/lib/models/model-v1.bin" _ _ _ doubleFailureScript _ _ _ _ _ _ _ _
    (by decide) (by decide) (by decide) rfl rfl rfl rfl rfl rfl rfl rfl
    mockCollab mockCfg activeModelLink "v1-old-model" "v2-new-model"
    "/var/lib/models/model-v1.bin" _ _ rollbackPathMocks _ _ _ _ _ _ _ _
    (by decide) (by decide) (by decide) rfl rfl rfl rfl rfl rfl rfl rfl

/-- The rollback-unavailable outcome: the target captured by the link read is the
empty string (whatever error the read reported), the fetch, the validation and the
switch succeed, and the reload fails.  `RunOnce` returns the rollback-unavailable
error, makes no second `Set` call and no second reload, and leaves `lastKnownETag`
as it was. -/
theorem RunOnce_rollback_unavailable {σ : Type} (c : Collab σ) (cfg : Config)
    (activeModelPath K R : String) (errGet : Option GoError) (err : GoError)
    (w0 w1 w2 w3 w4 w5 w6 : σ)
    (hK : K ≠ "") (hR : R ≠ K)
    (hHead : c.HeadObject w0 cfg.S3Bucket cfg.S3Key = ((R, none), w1))
    (hGet : c.Get w1 activeModelPath = (("", errGet), w2))
    (hDownload : c.DownloadObject w2 cfg.S3Bucket cfg.S3Key (newModelDownloadPath R) = (none, w3))
    (hTest : c.Run w3 cfg.DeployScriptPath ["--test", newModelDownloadPath R] = (none, w4))
    (hSet : c.Set w4 (newModelDownloadPath R) activeModelPath = (none, w5))
    (hReload : c.Run w5 cfg.DeployScriptPath ["--reload"] = (some err, w6)) :
    (RunOnce c ⟨cfg, K, activeModelPath⟩ w0).err
      = some (GoError.msg "ROLLBACK BAŞARISIZ: Eski modelin yolu bilinmiyor") ∧
    setCalls (RunOnce c ⟨cfg, K, activeModelPath⟩ w0).trace
      = [(newModelDownloadPath R, activeModelPath)] ∧
    runCalls (RunOnce c ⟨cfg, K, activeModelPath⟩ w0).trace
      = [(cfg.DeployScriptPath, ["--test", newModelDownloadPath R]),
         (cfg.DeployScriptPath, ["--reload"])] ∧
    (RunOnce c ⟨cfg, K, activeModelPath⟩ w0).poller.lastKnownETag = K := by
  simp [RunOnce, hHead, hGet, hDownload, hTest, hSet, hReload, hK, hR, setCalls, runCalls]

/-- C9 at the input of the test.  In `TestPoller_HappyPath` the deployer double
records the validation call "deploy.sh --test models/model-v2-new-model.bin" and the
link double ends at the target "models/model-v2-new-model.bin"; the test expects
"deploy.sh --test /var/lib/edgesync/models/model-v2-new-model.bin" and the target
"/var/lib/edgesync/models/model-v2-new-model.bin". -/
theorem TestPoller_HappyPath_staged_path :
    TestPoller_HappyPath.world.deploy.Calls
      = ["deploy.sh --test models/model-v2-new-model.bin", "deploy.sh --reload"] ∧
    TestPoller_HappyPath.world.deploy.Calls[0]?
      ≠ some "deploy.sh --test /var/lib/edgesync/models/model-v2-new-model.bin" ∧
    runCalls TestPoller_HappyPath.trace
      = [("deploy.sh", ["--test", "models/model-v2-new-model.bin"]), ("deploy.sh", ["--reload"])] ∧
    TestPoller_HappyPath.world.link.CurrentTarget = "models/model-v2-new-model.bin" ∧
    TestPoller_HappyPath.world.link.CurrentTarget
      ≠ "/var/lib/edgesync/models/model-" ++ "v2-new-model" ++ ".bin" := by
  decide

/-- C10 (a link-read failure does not abort the rollout).  Known version `K`
non-empty, remote tag `R` different from `K`; the link read fails with `errGet`
(whatever target it hands back) and the fetch, the validation, the switch and the
reload succeed.  Then `RunOnce` makes the fetch, the validation run, the `Set` to
the staging path and the reload, sets `lastKnownETag = R` and returns nil. -/
theorem RunOnce_link_read_failure_proceeds {σ : Type} (c : Collab σ) (cfg : Config)
    (activeModelPath K R oldModelTarget : String) (errGet : GoError)
    (w0 w1 w2 w3 w4 w5 w6 : σ)
    (hK : K ≠ "") (hR : R ≠ K)
    (hHead : c.HeadObject w0 cfg.S3Bucket cfg.S3Key = ((R, none), w1))
    (hGet : c.Get w1 activeModelPath = ((oldModelTarget, some errGet), w2))
    (hDownload : c.DownloadObject w2 cfg.S3Bucket cfg.S3Key (newModelDownloadPath R) = (none, w3))
    (hTest : c.Run w3 cfg.DeployScriptPath ["--test", newModelDownloadPath R] = (none, w4))
    (hSet : c.Set w4 (newModelDownloadPath R) activeModelPath = (none, w5))
    (hReload : c.Run w5 cfg.DeployScriptPath ["--reload"] = (none, w6)) :
    (RunOnce c ⟨cfg, K, activeModelPath⟩ w0).trace
      = [Event.HeadObject cfg.S3Bucket cfg.S3Key, Event.Get activeModelPath,
         Event.DownloadObject cfg.S3Bucket cfg.S3Key (newModelDownloadPath R),
         Event.Run cfg.DeployScriptPath ["--test", newModelDownloadPath R],
         Event.Set (newModelDownloadPath R) activeModelPath,
         Event.Run cfg.DeployScriptPath ["--reload"], Event.Lock, Event.Unlock] ∧
    (RunOnce c ⟨cfg, K, activeModelPath⟩ w0).poller.lastKnownETag = R ∧
    (RunOnce c ⟨cfg, K, activeModelPath⟩ w0).err = none := by
  simp [RunOnce, hHead, hGet, hDownload, hTest, hSet, hReload, hK, hR]

/-- Witness of C10: the Poller of the rollout tests over `linkReadFailureScript`. -/
theorem RunOnce_link_read_failure_proceeds_witness :
    ("v1-old-model" ≠ "" ∧ "v2-new-model" ≠ "v1-old-model") ∧
    (scriptCollab.Get linkReadFailureScript activeModelLink).1.2
      = some (GoError.msg "readlink: no such file or directory") ∧
    (RunOnce scriptCollab testPoller linkReadFailureScript).trace
      = [Event.HeadObject "test-bucket" "model.bin", Event.Get activeModelLink,
         Event.DownloadObject "test-bucket" "model.bin" (newModelDownloadPath "v2-new-model"),
         Event.Run "deploy.sh" ["--test", newModelDownloadPath "v2-new-model"],
         Event.Set (newModelDownloadPath "v2-new-model") activeModelLink,
         Event.Run "deploy.sh" ["--reload"], Event.Lock, Event.Unlock] ∧
    (RunOnce scriptCollab testPoller linkReadFailureScript).poller.lastKnownETag
      = "v2-new-model" ∧
    (RunOnce scriptCollab testPoller linkReadFailureScript).err = none :=
  ⟨⟨by decide, by decide⟩, rfl,
   RunOnce_link_read_failure_proceeds scriptCollab mockCfg activeModelLink "v1-old-model"
    "v2-new-model" _ _ linkReadFailureScript _ _ _ _ _ _ (by decide) (by decide)
    rfl rfl rfl rfl rfl rfl⟩

/-! ## Degradation and transient failures -/

/-- A text that opens with a literal longer than `pre` which `pre` does not open
does not start with `pre`. -/
theorem not_strHasPrefix_append (lit rest pre : String)
    (hlen : pre.data.length ≤ lit.data.length) (h : ¬ strHasPrefix lit pre) :
    ¬ strHasPrefix (lit ++ rest) pre := by
  unfold strHasPrefix at *
  rw [String.data_append]
  intro hp
  exact h (List.prefix_of_prefix_length_le hp (List.prefix_append _ _) hlen)

/-- The lines logged by a cycle that rolls out `R` with a clean link read. -/
theorem RunOnce_clean_logs {σ : Type} (c : Collab σ) (cfg : Config)
    (activeModelPath K R oldModelTarget : String) (w0 w1 w2 w3 w4 w5 w6 : σ)
    (hK : K ≠ "") (hR : R ≠ K)
    (hHead : c.HeadObject w0 cfg.S3Bucket cfg.S3Key = ((R, none), w1))
    (hGet : c.Get w1 activeModelPath = ((oldModelTarget, none), w2))
    (hDownload : c.DownloadObject w2 cfg.S3Bucket cfg.S3Key (newModelDownloadPath R) = (none, w3))
    (hTest : c.Run w3 cfg.DeployScriptPath ["--test", newModelDownloadPath R] = (none, w4))
    (hSet : c.Set w4 (newModelDownloadPath R) activeModelPath = (none, w5))
    (hReload : c.Run w5 cfg.DeployScriptPath ["--reload"] = (none, w6)) :
    (RunOnce c ⟨cfg, K, activeModelPath⟩ w0).err = none ∧
    ∀ line ∈ (RunOnce c ⟨cfg, K, activeModelPath⟩ w0).logs,
      ¬ strHasPrefix line "[Poller] UYARI" := by
  refine ⟨by simp [RunOnce, hHead, hGet, hDownload, hTest, hSet, hReload, hK, hR], ?_⟩
  intro line hline
  simp only [RunOnce, hHead, hGet, hDownload, hTest, hSet, hReload, hK, hR, if_false,
    List.mem_append, List.mem_singleton, List.mem_cons, String.append_assoc] at hline
  simp only [or_assoc, List.not_mem_nil, or_false] at hline
  rcases hline with h | h | h | h | h | h | h | h <;> subst h
  · decide
  · exact not_strHasPrefix_append _ _ _ (by decide) (by decide)
  · exact not_strHasPrefix_append _ _ _ (by decide) (by decide)
  · decide
  · decide
  · exact not_strHasPrefix_append _ _ _ (by decide) (by decide)
  · decide
  · exact not_strHasPrefix_append _ _ _ (by decide) (by decide)

/-- C11, as stated, fails: a degraded cycle returns what a clean one returns.  Over
`linkReadFailureScript` the link read fails and the rest of the cycle succeeds;
in `TestPoller_HappyPath` the link read succeeds.  Both calls of `RunOnce` return
nil, so the returned value carries no warning. -/
theorem RunOnce_degraded_returns_nil :
    (scriptCollab.Get linkReadFailureScript activeModelLink).1.2
      = some (GoError.msg "readlink: no such file or directory") ∧
    (RunOnce scriptCollab testPoller linkReadFailureScript).poller.lastKnownETag
      = "v2-new-model" ∧
    (RunOnce scriptCollab testPoller linkReadFailureScript).err = none ∧
    (mockCollab.Get happyPathMocks activeModelLink).1.2 = none ∧
    TestPoller_HappyPath.poller.lastKnownETag = "v2-new-model" ∧
    TestPoller_HappyPath.err = none ∧
    (RunOnce scriptCollab testPoller linkReadFailureScript).err = TestPoller_HappyPath.err := by
  decide

/-- C11, amended: the degradation is surfaced in the log, not in the returned
value.  Take a cycle `A` in which the link read fails with `errGet` and the rest
of the rollout succeeds, and a cycle `B` that rolls out with a clean link read.
Both return nil.  Cycle `A` logs the warning line `linkReadWarning errGet`, which
starts with "[Poller] UYARI"; no line logged by cycle `B` starts with
"[Poller] UYARI". -/
theorem RunOnce_link_read_warning_logged {σ τ : Type}
    (c : Collab σ) (cfg : Config) (activeModelPath K R oldModelTarget : String)
    (errGet : GoError) (w0 w1 w2 w3 w4 w5 w6 : σ)
    (hK : K ≠ "") (hR : R ≠ K)
    (hHead : c.HeadObject w0 cfg.S3Bucket cfg.S3Key = ((R, none), w1))
    (hGet : c.Get w1 activeModelPath = ((oldModelTarget, some errGet), w2))
    (hDownload : c.DownloadObject w2 cfg.S3Bucket cfg.S3Key (newModelDownloadPath R) = (none, w3))
    (hTest : c.Run w3 cfg.DeployScriptPath ["--test", newModelDownloadPath R] = (none, w4))
    (hSet : c.Set w4 (newModelDownloadPath R) activeModelPath = (none, w5))
    (hReload : c.Run w5 cfg.DeployScriptPath ["--reload"] = (none, w6))
    (d : Collab τ) (cfgB : Config) (activeModelPathB KB RB oldModelTargetB : String)
    (v0 v1 v2 v3 v4 v5 v6 : τ)
    (hKB : KB ≠ "") (hRB : RB ≠ KB)
    (hHeadB : d.HeadObject v0 cfgB.S3Bucket cfgB.S3Key = ((RB, none), v1))
    (hGetB : d.Get v1 activeModelPathB = ((oldModelTargetB, none), v2))
    (hDownloadB :
      d.DownloadObject v2 cfgB.S3Bucket cfgB.S3Key (newModelDownloadPath RB) = (none, v3))
    (hTestB : d.Run v3 cfgB.DeployScriptPath ["--test", newModelDownloadPath RB] = (none, v4))
    (hSetB : d.Set v4 (newModelDownloadPath RB) activeModelPathB = (none, v5))
    (hReloadB : d.Run v5 cfgB.DeployScriptPath ["--reload"] = (none, v6)) :
    (RunOnce c ⟨cfg, K, activeModelPath⟩ w0).err = none ∧
    (RunOnce d ⟨cfgB, KB, activeModelPathB⟩ v0).err = none ∧
    linkReadWarning errGet ∈ (RunOnce c ⟨cfg, K, activeModelPath⟩ w0).logs ∧
    strHasPrefix (linkReadWarning errGet) "[Poller] UYARI" ∧
    (∀ line ∈ (RunOnce d ⟨cfgB, KB, activeModelPathB⟩ v0).logs,
      ¬ strHasPrefix line "[Poller] UYARI") ∧
    linkReadWarning errGet ∉ (RunOnce d ⟨cfgB, KB, activeModelPathB⟩ v0).logs := by
  have hB := RunOnce_clean_logs d cfgB activeModelPathB KB RB oldModelTargetB
    v0 v1 v2 v3 v4 v5 v6 hKB hRB hHeadB hGetB hDownloadB hTestB hSetB hReloadB
  have hpre : strHasPrefix (linkReadWarning errGet) "[Poller] UYARI" := by
    have h : strHasPrefix "[Poller] UYARI: Rollback için eski modelin yolu okunamadı: "
        "[Poller] UYARI" := by decide
    unfold strHasPrefix at *
    simp only [linkReadWarning, String.data_append]
    exact h.trans (List.prefix_append _ _)
  refine ⟨?_, hB.1, ?_, hpre, hB.2, fun hmem => hB.2 _ hmem hpre⟩
  · simp [RunOnce, hHead, hGet, hDownload, hTest, hSet, hReload, hK, hR]
  · simp [RunOnce, hHead, hGet, hDownload, hTest, hSet, hReload, hK, hR, linkReadWarning]

/-- Witness of the amended C11: cycle `A` over `linkReadFailureScript`, cycle `B`
the run of `TestPoller_HappyPath`. -/
theorem RunOnce_link_read_warning_logged_witness :
    (RunOnce scriptCollab testPoller linkReadFailureScript).err = none ∧
    TestPoller_HappyPath.err = none ∧
    linkReadWarning (GoError.msg "readlink: no such file or directory")
      ∈ (RunOnce scriptCollab testPoller linkReadFailureScript).logs ∧
    strHasPrefix (linkReadWarning (GoError.msg "readlink: no such file or directory"))
      "[Poller] UYARI" ∧
    (∀ line ∈ TestPoller_HappyPath.logs, ¬ strHasPrefix line "[Poller] UYARI") ∧
    linkReadWarning (GoError.msg "readlink: no such file or directory")
      ∉ TestPoller_HappyPath.logs :=
  RunOnce_link_read_warning_logged
    scriptCollab mockCfg activeModelLink "v1-old-model" "v2-new-model" _ _
    linkReadFailureScript _ _ _ _ _ _ (by decide) (by decide) rfl rfl rfl rfl rfl rfl
    mockCollab mockCfg activeModelLink "v1-old-model" "v2-new-model" _
    happyPathMocks _ _ _ _ _ _ (by decide) (by decide) rfl rfl rfl rfl rfl rfl

/-- C12 (transient lookup or fetch failure).  Cycle `A`, from any Poller: the
lookup fails with `errHead`; `RunOnce` returns an error wrapping `errHead`, its
only collaborator call is the lookup, and the Poller is unchanged.  Cycle `B`,
from a Poller that knows `KB`: the lookup answers a different tag `RB` and the
fetch fails with `errFetch` (whatever the link read answered); `RunOnce` returns
an error wrapping `errFetch`, makes no `Run` and no `Set` call, and leaves the
Poller unchanged. -/
theorem RunOnce_transient_failure {σ τ : Type}
    (c : Collab σ) (p : Poller) (remoteETag : String) (errHead : GoError) (w0 w1 : σ)
    (hHead : c.HeadObject w0 p.cfg.S3Bucket p.cfg.S3Key = ((remoteETag, some errHead), w1))
    (d : Collab τ) (cfgB : Config) (activeModelPathB KB RB oldModelTargetB : String)
    (errGetB : Option GoError) (errFetch : GoError) (v0 v1 v2 v3 : τ)
    (hKB : KB ≠ "") (hRB : RB ≠ KB)
    (hHeadB : d.HeadObject v0 cfgB.S3Bucket cfgB.S3Key = ((RB, none), v1))
    (hGetB : d.Get v1 activeModelPathB = ((oldModelTargetB, errGetB), v2))
    (hDownloadB : d.DownloadObject v2 cfgB.S3Bucket cfgB.S3Key (newModelDownloadPath RB)
      = (some errFetch, v3)) :
    ((RunOnce c p w0).err = some (Errorf "S3 HeadObject hatası: " errHead) ∧
      (Errorf "S3 HeadObject hatası: " errHead).Unwrap = some errHead ∧
      (RunOnce c p w0).trace = [Event.HeadObject p.cfg.S3Bucket p.cfg.S3Key] ∧
      (RunOnce c p w0).poller = p) ∧
    ((RunOnce d ⟨cfgB, KB, activeModelPathB⟩ v0).err
        = some (Errorf "S3 DownloadObject hatası: " errFetch) ∧
      (Errorf "S3 DownloadObject hatası: " errFetch).Unwrap = some errFetch ∧
      runCalls (RunOnce d ⟨cfgB, KB, activeModelPathB⟩ v0).trace = [] ∧
      setCalls (RunOnce d ⟨cfgB, KB, activeModelPathB⟩ v0).trace = [] ∧
      (RunOnce d ⟨cfgB, KB, activeModelPathB⟩ v0).poller = ⟨cfgB, KB, activeModelPathB⟩) := by
  refine ⟨⟨?_, rfl, ?_, ?_⟩, ⟨?_, rfl, ?_, ?_, ?_⟩⟩
  · simp [RunOnce, hHead]
  · simp [RunOnce, hHead]
  · simp [RunOnce, hHead]
  · simp [RunOnce, hHeadB, hGetB, hDownloadB, hKB, hRB]
  · simp [RunOnce, hHeadB, hGetB, hDownloadB, hKB, hRB, runCalls]
  · simp [RunOnce, hHeadB, hGetB, hDownloadB, hKB, hRB, setCalls]
  · simp [RunOnce, hHeadB, hGetB, hDownloadB, hKB, hRB]

/-- Witness of C12: cycle `A` over the store double with `ErrToReturn` set, cycle
`B` over a script whose fetch fails. -/
theorem RunOnce_transient_failure_witness :
    ((RunOnce mockCollab testPoller lookupFailureMocks).err
        = some (Errorf "S3 HeadObject hatası: " (GoError.msg "connection refused")) ∧
      (Errorf "S3 HeadObject hatası: " (GoError.msg "connection refused")).Unwrap
        = some (GoError.msg "connection refused") ∧
      (RunOnce mockCollab testPoller lookupFailureMocks).trace
        = [Event.HeadObject testPoller.cfg.S3Bucket testPoller.cfg.S3Key] ∧
      (RunOnce mockCollab testPoller lookupFailureMocks).poller = testPoller) ∧
    ((RunOnce scriptCollab testPoller fetchFailureScript).err
        = some (Errorf "S3 DownloadObject hatası: " (GoError.msg "unexpected EOF")) ∧
      (Errorf "S3 DownloadObject hatası: " (GoError.msg "unexpected EOF")).Unwrap
        = some (GoError.msg "unexpected EOF") ∧
      runCalls (RunOnce scriptCollab testPoller fetchFailureScript).trace = [] ∧
      setCalls (RunOnce scriptCollab testPoller fetchFailureScript).trace = [] ∧
      (RunOnce scriptCollab testPoller fetchFailureScript).poller = testPoller) :=
  RunOnce_transient_failure mockCollab testPoller _ _ lookupFailureMocks _ rfl
    scriptCollab mockCfg activeModelLink "v1-old-model" "v2-new-model" _ _ _
    fetchFailureScript _ _ _ (by decide) (by decide) rfl rfl rfl

/-! ## Bounds and repetition -/

/-- C15 (at most one cycle per invocation).  For every Poller, collaborator
behaviour and collaborator state, the trace of one `RunOnce` holds at most one
`HeadObject`, one `Get` and one `DownloadObject` call, at most three `Run` calls of
which at most one is in validate mode, and at most two `Set` calls. -/
theorem RunOnce_call_bounds {σ : Type} (c : Collab σ) (p : Poller) (w : σ) :
    (headObjectCalls (RunOnce c p w).trace).length ≤ 1 ∧
    (getCalls (RunOnce c p w).trace).length ≤ 1 ∧
    (downloadCalls (RunOnce c p w).trace).length ≤ 1 ∧
    (runCalls (RunOnce c p w).trace).length ≤ 3 ∧
    (validateCalls (RunOnce c p w).trace).length ≤ 1 ∧
    (setCalls (RunOnce c p w).trace).length ≤ 2 := by
  unfold RunOnce
  simp only []
  repeat' split
  all_goals
    simp [headObjectCalls, getCalls, downloadCalls, runCalls, validateCalls, setCalls]

/-- The write lock in the trace of `RunOnce`: no collaborator call is made while
the lock is held, the lock is taken at most once, and it is taken on every path
that changes `lastKnownETag`. -/
theorem RunOnce_lock_discipline {σ : Type} (c : Collab σ) (p : Poller) (w : σ) :
    callsUnderLock false (RunOnce c p w).trace = [] ∧
    (RunOnce c p w).trace.count Event.Lock ≤ 1 ∧
    (RunOnce c p w).trace.count Event.Lock = (RunOnce c p w).trace.count Event.Unlock ∧
    ((RunOnce c p w).poller ≠ p → Event.Lock ∈ (RunOnce c p w).trace) := by
  unfold RunOnce
  simp only []
  repeat' split
  all_goals simp [callsUnderLock]

/-- A cycle that returns an error leaves the Poller as it found it. -/
theorem RunOnce_poller_of_error {σ : Type} (c : Collab σ) (p : Poller) (w : σ)
    (h : (RunOnce c p w).err ≠ none) : (RunOnce c p w).poller = p := by
  revert h
  unfold RunOnce
  simp only []
  repeat' split
  all_goals simp

/-- C16 (the controller does not disable itself).  The Poller knows `K`, and a
first `RunOnce` returns an error, whichever.  In the following `RunOnce`, started
from the Poller and the collaborator state the first one left, the store answers
`R` different from `K` and every call succeeds.  Then that second call makes the
fetch, the validation run, the `Set` to the staging path and the reload, returns
nil, and leaves `lastKnownETag = R`. -/
theorem RunOnce_retry_after_error {σ : Type} (c : Collab σ) (cfg : Config)
    (activeModelPath K R oldModelTarget : String) (w : σ) (u1 u2 u3 u4 u5 u6 : σ)
    (hK : K ≠ "") (hR : R ≠ K)
    (hErr : (RunOnce c ⟨cfg, K, activeModelPath⟩ w).err ≠ none)
    (hHead : c.HeadObject (RunOnce c ⟨cfg, K, activeModelPath⟩ w).world cfg.S3Bucket cfg.S3Key
      = ((R, none), u1))
    (hGet : c.Get u1 activeModelPath = ((oldModelTarget, none), u2))
    (hDownload : c.DownloadObject u2 cfg.S3Bucket cfg.S3Key (newModelDownloadPath R) = (none, u3))
    (hTest : c.Run u3 cfg.DeployScriptPath ["--test", newModelDownloadPath R] = (none, u4))
    (hSet : c.Set u4 (newModelDownloadPath R) activeModelPath = (none, u5))
    (hReload : c.Run u5 cfg.DeployScriptPath ["--reload"] = (none, u6)) :
    (RunOnce c (RunOnce c ⟨cfg, K, activeModelPath⟩ w).poller
      (RunOnce c ⟨cfg, K, activeModelPath⟩ w).world).err = none ∧
    (RunOnce c (RunOnce c ⟨cfg, K, activeModelPath⟩ w).poller
      (RunOnce c ⟨cfg, K, activeModelPath⟩ w).world).trace
      = [Event.HeadObject cfg.S3Bucket cfg.S3Key, Event.Get activeModelPath,
         Event.DownloadObject cfg.S3Bucket cfg.S3Key (newModelDownloadPath R),
         Event.Run cfg.DeployScriptPath ["--test", newModelDownloadPath R],
         Event.Set (newModelDownloadPath R) activeModelPath,
         Event.Run cfg.DeployScriptPath ["--reload"], Event.Lock, Event.Unlock] ∧
    (RunOnce c (RunOnce c ⟨cfg, K, activeModelPath⟩ w).poller
      (RunOnce c ⟨cfg, K, activeModelPath⟩ w).world).poller.lastKnownETag = R := by
  rw [RunOnce_poller_of_error c _ w hErr]
  generalize (RunOnce c ⟨cfg, K, activeModelPath⟩ w).world = u0 at hHead ⊢
  simp [RunOnce, hHead, hGet, hDownload, hTest, hSet, hReload, hK, hR]

/-- Witness of C16: a first cycle over `doubleFailureScript`, which ends in the
fatal double failure, followed by a cycle in which every call succeeds. -/
theorem RunOnce_retry_after_error_witness :
    ("v1-old-model" ≠ "" ∧ "v2-new-model" ≠ "v1-old-model") ∧
    (RunOnce scriptCollab testPoller doubleFailureScript).err
      = some (Errorf "KRİTİK HATA! Rollback başarılı ancak servis eski modelle de başlatılamadı: "
          (GoError.msg "exit status 2")) ∧
    (RunOnce scriptCollab (RunOnce scriptCollab testPoller doubleFailureScript).poller
      (RunOnce scriptCollab testPoller doubleFailureScript).world).err = none ∧
    (RunOnce scriptCollab (RunOnce scriptCollab testPoller doubleFailureScript).poller
      (RunOnce scriptCollab testPoller doubleFailureScript).world).trace
      = [Event.HeadObject "test-bucket" "model.bin", Event.Get activeModelLink,
         Event.DownloadObject "test-bucket" "model.bin" (newModelDownloadPath "v2-new-model"),
         Event.Run "deploy.sh" ["--test", newModelDownloadPath "v2-new-model"],
         Event.Set (newModelDownloadPath "v2-new-model") activeModelLink,
         Event.Run "deploy.sh" ["--reload"], Event.Lock, Event.Unlock] ∧
    (RunOnce scriptCollab (RunOnce scriptCollab testPoller doubleFailureScript).poller
      (RunOnce scriptCollab testPoller doubleFailureScript).world).poller.lastKnownETag
      = "v2-new-model" :=
  ⟨⟨by decide, by decide⟩, by decide,
   RunOnce_retry_after_error scriptCollab mockCfg activeModelLink "v1-old-model" "v2-new-model"
    _ doubleFailureScript _ _ _ _ _ _ (by decide) (by decide) (by decide)
    rfl rfl rfl rfl rfl rfl⟩

/-! ## The known version -/

/-- One cycle in which the store, when it answers, answers a non-empty tag: a
successful cycle leaves a non-empty known version, and a non-empty known version
stays non-empty whatever the result. -/
theorem RunOnce_known_version {σ : Type} (c : Collab σ) (p : Poller) (w : σ)
    (hTag : (c.HeadObject w p.cfg.S3Bucket p.cfg.S3Key).1.2 = none →
      (c.HeadObject w p.cfg.S3Bucket p.cfg.S3Key).1.1 ≠ "") :
    ((RunOnce c p w).err = none → (RunOnce c p w).poller.lastKnownETag ≠ "") ∧
    (p.lastKnownETag ≠ "" → (RunOnce c p w).poller.lastKnownETag ≠ "") ∧
    (RunOnce c p w).poller.cfg = p.cfg := by
  revert hTag
  unfold RunOnce
  simp only []
  repeat' split
  all_goals simp_all

/-- Successive cycles from a Poller with a non-empty known version, over a store
that never answers the empty tag: the known version stays non-empty. -/
theorem RunTimes_known_version_kept {σ : Type} (c : Collab σ)
    (hTag : ∀ w b k, (c.HeadObject w b k).1.2 = none → (c.HeadObject w b k).1.1 ≠ "")
    (n : Nat) (p : Poller) (w : σ) (hp : p.lastKnownETag ≠ "") :
    ∀ o ∈ RunTimes c n p w, o.poller.lastKnownETag ≠ "" := by
  induction n generalizing p w with
  | zero => simp [RunTimes]
  | succ n ih =>
    have h1 := (RunOnce_known_version c p w (hTag w _ _)).2.1 hp
    intro o ho
    simp only [RunTimes, List.mem_cons] at ho
    rcases ho with rfl | ho
    · exact h1
    · exact ih _ _ h1 o ho

/-- C14, as stated, fails for the empty tag.  Over the zero-value store double the
lookup succeeds with the tag "".  On a fresh Poller `RunOnce` returns nil and
`GetStatus` still reports the empty value; on a Poller that knows "v1-old-model"
the rollout of the tag "" succeeds and `GetStatus` reports the empty value again. -/
theorem RunOnce_empty_tag_recorded :
    (mockCollab.HeadObject emptyTagMocks "test-bucket" "model.bin").1 = ("", none) ∧
    (RunOnce mockCollab (NewPoller mockCfg activeModelLink) emptyTagMocks).err = none ∧
    GetStatus (RunOnce mockCollab (NewPoller mockCfg activeModelLink) emptyTagMocks).poller
      = "" ∧
    GetStatus testPoller = "v1-old-model" ∧
    (RunOnce mockCollab testPoller emptyTagMocks).err = none ∧
    GetStatus (RunOnce mockCollab testPoller emptyTagMocks).poller = "" := by
  decide

/-- C14, amended: the store never answers the empty tag.  Then, in any sequence of
successive cycles from any Poller and collaborator state, a cycle that returns
success leaves a known version that `GetStatus` reports as non-empty, and so does
every later cycle of the sequence, whatever it returns. -/
theorem RunTimes_known_version_present {σ : Type} (c : Collab σ)
    (hTag : ∀ w b k, (c.HeadObject w b k).1.2 = none → (c.HeadObject w b k).1.1 ≠ "")
    (n : Nat) (p : Poller) (w : σ) (earlier later : List (Outcome σ)) (o : Outcome σ)
    (hsplit : RunTimes c n p w = earlier ++ o :: later) (hok : o.err = none) :
    GetStatus o.poller ≠ "" ∧ ∀ o2 ∈ later, GetStatus o2.poller ≠ "" := by
  induction n generalizing p w earlier with
  | zero => simp [RunTimes] at hsplit
  | succ n ih =>
    cases earlier with
    | nil =>
      simp only [RunTimes, List.nil_append, List.cons.injEq] at hsplit
      obtain ⟨ho, hl⟩ := hsplit
      subst ho
      have h1 := (RunOnce_known_version c p w (hTag w _ _)).1 hok
      refine ⟨h1, ?_⟩
      rw [← hl]
      exact RunTimes_known_version_kept c hTag n _ _ h1
    | cons e es =>
      simp only [RunTimes, List.cons_append, List.cons.injEq] at hsplit
      exact ih _ _ es hsplit.2

/-- Witness of the amended C14: three cycles over `alternatingStore` from a fresh
Poller; the first one returns success. -/
theorem RunTimes_known_version_present_witness :
    (RunOnce alternatingStore (NewPoller mockCfg activeModelLink) 0).err = none ∧
    GetStatus (RunOnce alternatingStore (NewPoller mockCfg activeModelLink) 0).poller ≠ "" ∧
    ∀ o2 ∈ RunTimes alternatingStore 2
        (RunOnce alternatingStore (NewPoller mockCfg activeModelLink) 0).poller
        (RunOnce alternatingStore (NewPoller mockCfg activeModelLink) 0).world,
      GetStatus o2.poller ≠ "" :=
  ⟨by decide,
   RunTimes_known_version_present alternatingStore
    (fun w _ _ _ => by
      show (if w % 2 = 0 then "v1-model" else "v2-model") ≠ ""
      split <;> decide)
    3 (NewPoller mockCfg activeModelLink) 0 [] _ _ rfl (by decide)⟩

/-- C19 (`GetStatus` is a pure read).  For every Poller `q` and collaborator state
`v`, `GetStatus` returns `q.lastKnownETag`, leaves the Poller (configuration, known
ETag, link name) and the collaborator state as they are, and its trace holds the
read lock taken and released and no collaborator call.  And after a successful
rollout of `R`, `GetStatus` returns `R`. -/
theorem GetStatus_pure_read {σ : Type} (c : Collab σ) (cfg : Config)
    (activeModelPath K R oldModelTarget : String) (errGet : Option GoError)
    (w0 w1 w2 w3 w4 w5 w6 : σ)
    (hK : K ≠ "") (hR : R ≠ K)
    (hHead : c.HeadObject w0 cfg.S3Bucket cfg.S3Key = ((R, none), w1))
    (hGet : c.Get w1 activeModelPath = ((oldModelTarget, errGet), w2))
    (hDownload : c.DownloadObject w2 cfg.S3Bucket cfg.S3Key (newModelDownloadPath R) = (none, w3))
    (hTest : c.Run w3 cfg.DeployScriptPath ["--test", newModelDownloadPath R] = (none, w4))
    (hSet : c.Set w4 (newModelDownloadPath R) activeModelPath = (none, w5))
    (hReload : c.Run w5 cfg.DeployScriptPath ["--reload"] = (none, w6))
    (q : Poller) (v : σ) :
    GetStatus q = q.lastKnownETag ∧
    (GetStatus.outcome q v).1 = q.lastKnownETag ∧
    (GetStatus.outcome q v).2.poller = q ∧
    (GetStatus.outcome q v).2.world = v ∧
    (GetStatus.outcome q v).2.trace = [Event.RLock, Event.RUnlock] ∧
    (headObjectCalls (GetStatus.outcome q v).2.trace = [] ∧
      downloadCalls (GetStatus.outcome q v).2.trace = [] ∧
      runCalls (GetStatus.outcome q v).2.trace = [] ∧
      setCalls (GetStatus.outcome q v).2.trace = [] ∧
      getCalls (GetStatus.outcome q v).2.trace = []) ∧
    (RunOnce c ⟨cfg, K, activeModelPath⟩ w0).err = none ∧
    GetStatus (RunOnce c ⟨cfg, K, activeModelPath⟩ w0).poller = R ∧
    (GetStatus.outcome (RunOnce c ⟨cfg, K, activeModelPath⟩ w0).poller w6).1 = R := by
  refine ⟨rfl, rfl, rfl, rfl, rfl, ⟨rfl, rfl, rfl, rfl, rfl⟩, ?_, ?_, ?_⟩
  · cases errGet <;> simp [RunOnce, hHead, hGet, hDownload, hTest, hSet, hReload, hK, hR]
  · cases errGet <;>
      simp [GetStatus, RunOnce, hHead, hGet, hDownload, hTest, hSet, hReload, hK, hR]
  · cases errGet <;>
      simp [GetStatus.outcome, RunOnce, hHead, hGet, hDownload, hTest, hSet, hReload, hK, hR]

/-- Witness of C19: `GetStatus` on the Poller of the rollout tests, and after the
rollout of `TestPoller_HappyPath`. -/
theorem GetStatus_pure_read_witness :
    GetStatus testPoller = testPoller.lastKnownETag ∧
    (GetStatus.outcome testPoller happyPathMocks).1 = testPoller.lastKnownETag ∧
    (GetStatus.outcome testPoller happyPathMocks).2.poller = testPoller ∧
    (GetStatus.outcome testPoller happyPathMocks).2.world = happyPathMocks ∧
    (GetStatus.outcome testPoller happyPathMocks).2.trace = [Event.RLock, Event.RUnlock] ∧
    (headObjectCalls (GetStatus.outcome testPoller happyPathMocks).2.trace = [] ∧
      downloadCalls (GetStatus.outcome testPoller happyPathMocks).2.trace = [] ∧
      runCalls (GetStatus.outcome testPoller happyPathMocks).2.trace = [] ∧
      setCalls (GetStatus.outcome testPoller happyPathMocks).2.trace = [] ∧
      getCalls (GetStatus.outcome testPoller happyPathMocks).2.trace = []) ∧
    TestPoller_HappyPath.err = none ∧
    GetStatus TestPoller_HappyPath.poller = "v2-new-model" ∧
    (GetStatus.outcome TestPoller_HappyPath.poller TestPoller_HappyPath.world).1
      = "v2-new-model" :=
  GetStatus_pure_read mockCollab mockCfg activeModelLink "v1-old-model" "v2-new-model" _ _
    happyPathMocks _ _ _ _ _ _ (by decide) (by decide) rfl rfl rfl rfl rfl rfl
    testPoller happyPathMocks

/-! ## The link and the known version -/

/-- C13, as stated, fails at three inputs, over the link manager with explicit link
state; the remote tag is "v2-new-model" in each.  (1) `noLinkWorld`: the link does
not exist yet, so the read fails; the switch succeeds and the reload fails, and
rollback is unavailable.  (2) `rollbackSetFailureWorld`: the link points at the
model of version 1, the reload fails and the rollback `Set` fails.  In both the
link ends at the staging path of the new tag while the known version is still
"v1-old-model".  (3) `allGoodWorld` on a fresh Poller (cold start): the known
version becomes the remote tag and the link stays at version 1.  In none of the
three do the link and the known version both reflect the remote tag, nor do both
keep their values from before the cycle. -/
theorem RunOnce_link_disagreement :
    ((RunOnce (linkCollab scriptSurroundings) testPoller noLinkWorld).world.links activeModelLink
        = some (newModelDownloadPath "v2-new-model") ∧
      (RunOnce (linkCollab scriptSurroundings) testPoller noLinkWorld).poller.lastKnownETag
        = "v1-old-model" ∧
      ¬ (((RunOnce (linkCollab scriptSurroundings) testPoller noLinkWorld).world.links
            activeModelLink = some (newModelDownloadPath "v2-new-model") ∧
          (RunOnce (linkCollab scriptSurroundings) testPoller noLinkWorld).poller.lastKnownETag
            = "v2-new-model") ∨
        ((RunOnce (linkCollab scriptSurroundings) testPoller noLinkWorld).world.links
            activeModelLink = noLinkWorld.links activeModelLink ∧
          (RunOnce (linkCollab scriptSurroundings) testPoller noLinkWorld).poller.lastKnownETag
            = testPoller.lastKnownETag))) ∧
    ((RunOnce (linkCollab scriptSurroundings) testPoller rollbackSetFailureWorld).world.links
        activeModelLink = some (newModelDownloadPath "v2-new-model") ∧
      (RunOnce (linkCollab scriptSurroundings) testPoller
        rollbackSetFailureWorld).poller.lastKnownETag = "v1-old-model" ∧
      ¬ (((RunOnce (linkCollab scriptSurroundings) testPoller rollbackSetFailureWorld).world.links
            activeModelLink = some (newModelDownloadPath "v2-new-model") ∧
          (RunOnce (linkCollab scriptSurroundings) testPoller
            rollbackSetFailureWorld).poller.lastKnownETag = "v2-new-model") ∨
        ((RunOnce (linkCollab scriptSurroundings) testPoller rollbackSetFailureWorld).world.links
            activeModelLink = rollbackSetFailureWorld.links activeModelLink ∧
          (RunOnce (linkCollab scriptSurroundings) testPoller
            rollbackSetFailureWorld).poller.lastKnownETag = testPoller.lastKnownETag))) ∧
    ((RunOnce (linkCollab scriptSurroundings) (NewPoller mockCfg activeModelLink)
        allGoodWorld).world.links activeModelLink = some "/var/lib/models/model-v1.bin" ∧
      (RunOnce (linkCollab scriptSurroundings) (NewPoller mockCfg activeModelLink)
        allGoodWorld).poller.lastKnownETag = "v2-new-model" ∧
      ¬ (((RunOnce (linkCollab scriptSurroundings) (NewPoller mockCfg activeModelLink)
            allGoodWorld).world.links activeModelLink
              = some (newModelDownloadPath "v2-new-model") ∧
          (RunOnce (linkCollab scriptSurroundings) (NewPoller mockCfg activeModelLink)
            allGoodWorld).poller.lastKnownETag = "v2-new-model") ∨
        ((RunOnce (linkCollab scriptSurroundings) (NewPoller mockCfg activeModelLink)
            allGoodWorld).world.links activeModelLink = allGoodWorld.links activeModelLink ∧
          (RunOnce (linkCollab scriptSurroundings) (NewPoller mockCfg activeModelLink)
            allGoodWorld).poller.lastKnownETag
              = (NewPoller mockCfg activeModelLink).lastKnownETag))) := by
  decide

/-- The link manager with explicit link state: `Get` changes no link, and hands
back the empty string or the current target of the link. -/
theorem linkCollab_Get {ρ : Type} (b : Surroundings ρ) (w : LinkWorld ρ) (linkName : String) :
    ((linkCollab b).Get w linkName).2.links = w.links ∧
    (((linkCollab b).Get w linkName).1.1 = "" ∨
      w.links linkName = some ((linkCollab b).Get w linkName).1.1) := by
  simp only [linkCollab]
  split
  · simp
  · split <;> simp_all

/-- The link manager with explicit link state: a successful `Set` makes the link
point at the target, a failed `Set` changes no link. -/
theorem linkCollab_Set {ρ : Type} (b : Surroundings ρ) (w : LinkWorld ρ)
    (target linkName : String) :
    (((linkCollab b).Set w target linkName).1 = none →
      ((linkCollab b).Set w target linkName).2.links linkName = some target) ∧
    (((linkCollab b).Set w target linkName).1 ≠ none →
      ((linkCollab b).Set w target linkName).2.links = w.links) := by
  simp only [linkCollab]
  split <;> simp

/-- C13, amended.  Over the link manager with explicit link state, for every
Poller, every behaviour of the store and the runner and every fault of the link
manager, with `R` the tag the lookup hands back, one of four holds once `RunOnce`
has returned: (a) the link targets the staging path of `R` and `lastKnownETag` is
`R`; (b) the link target and `lastKnownETag` both have their values from before the
cycle; (c) `RunOnce` returned the rollback-unavailable error or the error of a
failed rollback `Set`, the link targets the staging path of `R` and `lastKnownETag`
has its value from before; (d) cold start: there was no known version, `RunOnce`
returned nil, `lastKnownETag` is `R` and the link is untouched. -/
theorem RunOnce_link_agreement {ρ : Type} (b : Surroundings ρ) (p : Poller) (w : LinkWorld ρ) :
    ((RunOnce (linkCollab b) p w).world.links p.activeModelPath
        = some (newModelDownloadPath (b.HeadObject w p.cfg.S3Bucket p.cfg.S3Key).1.1) ∧
      (RunOnce (linkCollab b) p w).poller.lastKnownETag
        = (b.HeadObject w p.cfg.S3Bucket p.cfg.S3Key).1.1) ∨
    ((RunOnce (linkCollab b) p w).world.links p.activeModelPath = w.links p.activeModelPath ∧
      (RunOnce (linkCollab b) p w).poller.lastKnownETag = p.lastKnownETag) ∨
    (((RunOnce (linkCollab b) p w).err
          = some (GoError.msg "ROLLBACK BAŞARISIZ: Eski modelin yolu bilinmiyor") ∨
        ∃ errRollback, (RunOnce (linkCollab b) p w).err
          = some (Errorf "KRİTİK HATA! Rollback sırasında sembolik bağ değiştirilemedi: "
              errRollback)) ∧
      (RunOnce (linkCollab b) p w).world.links p.activeModelPath
        = some (newModelDownloadPath (b.HeadObject w p.cfg.S3Bucket p.cfg.S3Key).1.1) ∧
      (RunOnce (linkCollab b) p w).poller.lastKnownETag = p.lastKnownETag) ∨
    (p.lastKnownETag = "" ∧ (RunOnce (linkCollab b) p w).err = none ∧
      (RunOnce (linkCollab b) p w).poller.lastKnownETag
        = (b.HeadObject w p.cfg.S3Bucket p.cfg.S3Key).1.1 ∧
      (RunOnce (linkCollab b) p w).world.links p.activeModelPath = w.links p.activeModelPath) := by
  have hHl : ((linkCollab b).HeadObject w p.cfg.S3Bucket p.cfg.S3Key).2.links = w.links := rfl
  have hH1 : ((linkCollab b).HeadObject w p.cfg.S3Bucket p.cfg.S3Key).1
      = (b.HeadObject w p.cfg.S3Bucket p.cfg.S3Key).1 := rfl
  rcases hHead : (linkCollab b).HeadObject w p.cfg.S3Bucket p.cfg.S3Key with ⟨⟨R, eH⟩, w1⟩
  rw [hHead] at hHl hH1
  simp only at hHl
  rw [← hH1]
  simp only
  cases eH with
  | some e => right; left; simp [RunOnce, hHead, hHl]
  | none =>
  by_cases hK : p.lastKnownETag = ""
  · right; right; right; simp [RunOnce, hHead, hHl, hK]
  by_cases hR : R = p.lastKnownETag
  · right; left; simp [RunOnce, hHead, hHl, hK, hR]
  have hGl := linkCollab_Get b w1 p.activeModelPath
  rcases hGet : (linkCollab b).Get w1 p.activeModelPath with ⟨⟨t0, eG⟩, w2⟩
  rw [hGet] at hGl
  simp only at hGl
  have hDl : ((linkCollab b).DownloadObject w2 p.cfg.S3Bucket p.cfg.S3Key
      (newModelDownloadPath R)).2.links = w2.links := rfl
  rcases hDownload : (linkCollab b).DownloadObject w2 p.cfg.S3Bucket p.cfg.S3Key
      (newModelDownloadPath R) with ⟨eD, w3⟩
  rw [hDownload] at hDl
  simp only at hDl
  cases eD with
  | some e =>
    right; left
    simp [RunOnce, hHead, hK, hR, hGet, hDownload, hDl, hGl.1, hHl]
  | none =>
  have hTl : ((linkCollab b).Run w3 p.cfg.DeployScriptPath
      ["--test", newModelDownloadPath R]).2.links = w3.links := rfl
  rcases hTest : (linkCollab b).Run w3 p.cfg.DeployScriptPath
      ["--test", newModelDownloadPath R] with ⟨eT, w4⟩
  rw [hTest] at hTl
  simp only at hTl
  cases eT with
  | some e =>
    right; left
    simp [RunOnce, hHead, hK, hR, hGet, hDownload, hTest, hTl, hDl, hGl.1, hHl]
  | none =>
  have hSl := linkCollab_Set b w4 (newModelDownloadPath R) p.activeModelPath
  rcases hSet : (linkCollab b).Set w4 (newModelDownloadPath R) p.activeModelPath with ⟨eS, w5⟩
  rw [hSet] at hSl
  simp only at hSl
  cases eS with
  | some e =>
    right; left
    simp [RunOnce, hHead, hK, hR, hGet, hDownload, hTest, hSet, hSl.2 (by simp), hTl, hDl,
      hGl.1, hHl]
  | none =>
  have hS5 := hSl.1 rfl
  have hRl : ((linkCollab b).Run w5 p.cfg.DeployScriptPath ["--reload"]).2.links = w5.links :=
    rfl
  rcases hReload : (linkCollab b).Run w5 p.cfg.DeployScriptPath ["--reload"] with ⟨eR, w6⟩
  rw [hReload] at hRl
  simp only at hRl
  cases eR with
  | none =>
    left
    simp [RunOnce, hHead, hK, hR, hGet, hDownload, hTest, hSet, hReload, hRl, hS5]
  | some e =>
  by_cases hT0 : t0 = ""
  · right; right; left
    simp [RunOnce, hHead, hK, hR, hGet, hDownload, hTest, hSet, hReload, hRl, hS5, hT0]
  have hOl := linkCollab_Set b w6 t0 p.activeModelPath
  rcases hSetOld : (linkCollab b).Set w6 t0 p.activeModelPath with ⟨eO, w7⟩
  rw [hSetOld] at hOl
  simp only at hOl
  cases eO with
  | some e2 =>
    right; right; left
    simp [RunOnce, hHead, hK, hR, hGet, hDownload, hTest, hSet, hReload, hSetOld,
      hOl.2 (by simp), hRl, hS5, hT0]
  | none =>
  have hO7 := hOl.1 rfl
  have hprev : w.links p.activeModelPath = some t0 := by
    rcases hGl.2 with h | h
    · exact absurd h hT0
    · rw [← hHl]; exact h
  have hR2l : ((linkCollab b).Run w7 p.cfg.DeployScriptPath ["--reload"]).2.links = w7.links :=
    rfl
  rcases hReloadOld : (linkCollab b).Run w7 p.cfg.DeployScriptPath ["--reload"] with ⟨eR2, w8⟩
  rw [hReloadOld] at hR2l
  simp only at hR2l
  right; left
  cases eR2 <;>
    simp [RunOnce, hHead, hK, hR, hGet, hDownload, hTest, hSet, hReload, hSetOld, hReloadOld,
      hR2l, hO7, hprev, hT0]

/-! ## The real link manager and the real store client -/

/-- C17 at a failing input.  `RealLinker.Set` on a filesystem where the link
"active_model_link" points at "models/model-v1.bin", with the new target
"models/model-v2.bin" and no call refused: the call succeeds, and the link name
goes through the states old target, missing, new target.  When `os.Symlink` is
refused, `Set` fails and the link name is missing in the final state. -/
theorem RealLinker_Set_link_missing :
    (RealLinker.Set none none linkedFS "models/model-v2.bin" "active_model_link").err = none ∧
    (RealLinker.Set none none linkedFS "models/model-v2.bin" "active_model_link").states.map
        (fun fs => fs "active_model_link")
      = [some (Node.symlink "models/model-v1.bin"), none,
         some (Node.symlink "models/model-v2.bin")] ∧
    (RealLinker.Set none (some (GoError.msg "symlink: permission denied")) linkedFS
        "models/model-v2.bin" "active_model_link").err
      = some (GoError.msg "symlink: permission denied") ∧
    (RealLinker.Set none (some (GoError.msg "symlink: permission denied")) linkedFS
        "models/model-v2.bin" "active_model_link").fs "active_model_link" = none := by
  decide

/-- Whenever the link exists and `os.Remove` is not refused, the state after the
first step of `RealLinker.Set` has no link of that name. -/
theorem RealLinker_Set_removes_first (faultSymlink : Option GoError) (fs : FS)
    (target linkName : String) (node : Node) (h : fs linkName = some node) :
    ∃ fs1 fs2, (RealLinker.Set none faultSymlink fs target linkName).states = [fs, fs1, fs2] ∧
      fs1 linkName = none := by
  simp [RealLinker.Set, osRemove, h, FS.put]

/-- C20 at a failing input.  On an empty filesystem the download writes part of the
object and fails, and the operating system refuses the `os.Remove` of the cleanup.
`DownloadObject` returns the download error, and the file it created, with the
partial content, is still at the destination path. -/
theorem RealS3Client_DownloadObject_leaves_partial_file :
    emptyFS "models/model-v2-new-model.bin" = none ∧
    (RealS3Client.DownloadObject none brokenDownload
        (some (GoError.msg "remove models/model-v2-new-model.bin: file in use")) emptyFS
        "test-bucket" "model.bin" "models/model-v2-new-model.bin").err
      = some (Errorf "S3 DownloadObject (test-bucket/model.bin) hatası: "
          (GoError.msg "unexpected EOF")) ∧
    (RealS3Client.DownloadObject none brokenDownload
        (some (GoError.msg "remove models/model-v2-new-model.bin: file in use")) emptyFS
        "test-bucket" "model.bin" "models/model-v2-new-model.bin").fs
        "models/model-v2-new-model.bin"
      = some (Node.file "PARTIAL") := by
  decide

/-- When the `os.Remove` of the cleanup is not refused, a failing `DownloadObject`
leaves no file of its own: either `os.Create` failed and the filesystem is
unchanged, or nothing is at the destination path afterwards. -/
theorem RealS3Client_DownloadObject_cleans_up (faultCreate : Option GoError)
    (download : String → String → String × Option GoError) (fs : FS)
    (bucket key destinationPath : String)
    (h : (RealS3Client.DownloadObject faultCreate download none fs bucket key
      destinationPath).err ≠ none) :
    (RealS3Client.DownloadObject faultCreate download none fs bucket key destinationPath).fs = fs ∨
    (RealS3Client.DownloadObject faultCreate download none fs bucket key destinationPath).fs
      destinationPath = none := by
  revert h
  unfold RealS3Client.DownloadObject osCreate
  cases faultCreate with
  | some e => simp
  | none =>
    cases hf : followLinks fs maxLookups destinationPath with
    | none => simp
    | some file =>
      rcases hd : download bucket key with ⟨written, e⟩
      cases e with
      | none => simp
      | some e =>
        intro _
        right
        simp only [osRemove]
        split <;> simp_all [FS.put]

/-! ## The staging path and the link-set failures -/

/-- The staging path determines the tag: equal staging paths come from equal tags. -/
theorem newModelDownloadPath_injective (R1 R2 : String)
    (h : newModelDownloadPath R1 = newModelDownloadPath R2) : R1 = R2 := by
  have hd := congrArg String.data h
  simp only [newModelDownloadPath, String.data_append] at hd
  have h1 := List.append_cancel_right hd
  have h2 := List.append_cancel_left h1
  exact String.ext h2

/-- C21 (deterministic, identifiable staging path).  The staging path is
`newModelDownloadPath R`, a function of the remote tag `R` alone.  For every
Poller, collaborator behaviour and collaborator state, with `R` the tag the lookup
hands back: every `DownloadObject` call of the cycle has this path as destination,
every `Run` call in validate mode has it as artifact argument, and the first `Set`
call of the cycle (the switch), if there is one, has it as target.  And distinct
tags have distinct staging paths. -/
theorem RunOnce_staging_path {σ : Type} (c : Collab σ) (p : Poller) (w : σ)
    (R1 R2 : String) (hne : R1 ≠ R2) :
    (∀ call ∈ downloadCalls (RunOnce c p w).trace,
      call = (p.cfg.S3Bucket, p.cfg.S3Key,
        newModelDownloadPath (c.HeadObject w p.cfg.S3Bucket p.cfg.S3Key).1.1)) ∧
    (∀ call ∈ validateCalls (RunOnce c p w).trace,
      call = (p.cfg.DeployScriptPath,
        ["--test", newModelDownloadPath (c.HeadObject w p.cfg.S3Bucket p.cfg.S3Key).1.1])) ∧
    (∀ call, (setCalls (RunOnce c p w).trace).head? = some call →
      call = (newModelDownloadPath (c.HeadObject w p.cfg.S3Bucket p.cfg.S3Key).1.1,
        p.activeModelPath)) ∧
    newModelDownloadPath R1 ≠ newModelDownloadPath R2 := by
  refine ⟨?_, ?_, ?_, fun h => hne (newModelDownloadPath_injective R1 R2 h)⟩
  all_goals
    unfold RunOnce
    simp only []
    repeat' split
    all_goals simp_all [downloadCalls, runCalls, validateCalls, setCalls]

/-- Witness of C21: the cycle of `TestPoller_HappyPath`, and the tags "v1-old-model"
and "v2-new-model". -/
theorem RunOnce_staging_path_witness :
    "v1-old-model" ≠ "v2-new-model" ∧
    (∀ call ∈ downloadCalls TestPoller_HappyPath.trace,
      call = ("test-bucket", "model.bin", newModelDownloadPath "v2-new-model")) ∧
    (∀ call ∈ validateCalls TestPoller_HappyPath.trace,
      call = ("deploy.sh", ["--test", newModelDownloadPath "v2-new-model"])) ∧
    (∀ call, (setCalls TestPoller_HappyPath.trace).head? = some call →
      call = (newModelDownloadPath "v2-new-model", activeModelLink)) ∧
    newModelDownloadPath "v1-old-model" ≠ newModelDownloadPath "v2-new-model" :=
  ⟨by decide,
   RunOnce_staging_path mockCollab testPoller happyPathMocks "v1-old-model" "v2-new-model"
    (by decide)⟩

/-- C22 (activation link-set failure).  Known version `K` non-empty, remote tag `R`
different from `K`, whatever the link read answered: when the fetch and the
validation succeed and the `Set` to the staging path fails with `err`, `RunOnce`
returns an error that wraps `err`, runs no reload (the validation is its only `Run`
call), makes no further `Set` call, and leaves `lastKnownETag = K`. -/
theorem RunOnce_activation_set_failure {σ : Type} (c : Collab σ) (cfg : Config)
    (activeModelPath K R oldModelTarget : String) (errGet : Option GoError) (err : GoError)
    (w0 w1 w2 w3 w4 w5 : σ)
    (hK : K ≠ "") (hR : R ≠ K)
    (hHead : c.HeadObject w0 cfg.S3Bucket cfg.S3Key = ((R, none), w1))
    (hGet : c.Get w1 activeModelPath = ((oldModelTarget, errGet), w2))
    (hDownload : c.DownloadObject w2 cfg.S3Bucket cfg.S3Key (newModelDownloadPath R) = (none, w3))
    (hTest : c.Run w3 cfg.DeployScriptPath ["--test", newModelDownloadPath R] = (none, w4))
    (hSet : c.Set w4 (newModelDownloadPath R) activeModelPath = (some err, w5)) :
    (RunOnce c ⟨cfg, K, activeModelPath⟩ w0).err
      = some (Errorf "sembolik bağ değiştirilemedi: " err) ∧
    (Errorf "sembolik bağ değiştirilemedi: " err).Unwrap = some err ∧
    runCalls (RunOnce c ⟨cfg, K, activeModelPath⟩ w0).trace
      = [(cfg.DeployScriptPath, ["--test", newModelDownloadPath R])] ∧
    setCalls (RunOnce c ⟨cfg, K, activeModelPath⟩ w0).trace
      = [(newModelDownloadPath R, activeModelPath)] ∧
    (RunOnce c ⟨cfg, K, activeModelPath⟩ w0).poller.lastKnownETag = K := by
  refine ⟨?_, rfl, ?_, ?_, ?_⟩
  · simp [RunOnce, hHead, hGet, hDownload, hTest, hSet, hK, hR]
  · simp [RunOnce, hHead, hGet, hDownload, hTest, hSet, hK, hR, runCalls]
  · simp [RunOnce, hHead, hGet, hDownload, hTest, hSet, hK, hR, setCalls]
  · simp [RunOnce, hHead, hGet, hDownload, hTest, hSet, hK, hR]

/-- Witness of C22: the Poller of the rollout tests over `activationFailureScript`. -/
theorem RunOnce_activation_set_failure_witness :
    ("v1-old-model" ≠ "" ∧ "v2-new-model" ≠ "v1-old-model") ∧
    (RunOnce scriptCollab testPoller activationFailureScript).err
      = some (Errorf "sembolik bağ değiştirilemedi: "
          (GoError.msg "symlink: permission denied")) ∧
    (Errorf "sembolik bağ değiştirilemedi: " (GoError.msg "symlink: permission denied")).Unwrap
      = some (GoError.msg "symlink: permission denied") ∧
    runCalls (RunOnce scriptCollab testPoller activationFailureScript).trace
      = [("deploy.sh", ["--test", newModelDownloadPath "v2-new-model"])] ∧
    setCalls (RunOnce scriptCollab testPoller activationFailureScript).trace
      = [(newModelDownloadPath "v2-new-model", activeModelLink)] ∧
    (RunOnce scriptCollab testPoller activationFailureScript).poller.lastKnownETag
      = "v1-old-model" :=
  ⟨⟨by decide, by decide⟩,
   RunOnce_activation_set_failure scriptCollab mockCfg activeModelLink "v1-old-model"
    "v2-new-model" _ _ _ activationFailureScript _ _ _ _ _ (by decide) (by decide)
    rfl rfl rfl rfl rfl⟩

/-- An occurrence of `l` in `a ++ b` lies in `b`, when `l` does not occur in `a` and
no proper non-empty opening of `l` closes `a`. -/
theorem infix_of_infix_append (l a b : List Char) (hno : ¬ l <:+: a)
    (hsuf : ∀ k, 0 < k → k < l.length → ¬ l.take k <:+ a) (h : l <:+: a ++ b) :
    l <:+: b := by
  obtain ⟨s, t, hst⟩ := h
  rcases List.append_eq_append_iff.mp hst with ⟨a1, ha, _⟩ | ⟨c1, hc, hb⟩
  · exact absurd ⟨s, a1, ha.symm⟩ hno
  · rcases List.append_eq_append_iff.mp hc with ⟨a2, ha2, hl⟩ | ⟨c2, _, hc2⟩
    · -- `a = s ++ a2` and `l = a2 ++ c1`
      by_cases h0 : a2 = []
      · subst h0
        simp only [List.nil_append] at hl
        exact ⟨[], t, by simp [hb, hl]⟩
      · by_cases h1 : c1 = []
        · subst h1
          simp only [List.append_nil] at hl
          exact absurd ⟨s, [], by simp [ha2, hl]⟩ hno
        · exfalso
          refine hsuf a2.length (List.length_pos.mpr h0) ?_ ?_
          · rw [hl, List.length_append]
            have := List.length_pos.mpr h1
            omega
          · rw [hl, List.take_left]
            exact ⟨s, ha2.symm⟩
    · exact ⟨c2, t, by rw [hb, hc2]⟩

/-- The opening of the rollback link-set error does not bring the phrase
"rollback yapıldı" into the text: the text contains it only when the linker's own
error text does. -/
theorem rollback_set_text_no_rollback_done (t : String)
    (h : ¬ strContains t "rollback yapıldı") :
    ¬ strContains
      ("KRİTİK HATA! Rollback sırasında sembolik bağ değiştirilemedi: " ++ t)
      "rollback yapıldı" := by
  unfold strContains at *
  rw [String.data_append]
  intro hin
  refine h (infix_of_infix_append _ _ _ (by decide) ?_ hin)
  intro k h0 hk
  have hall : ∀ k, k < "rollback yapıldı".data.length → 0 < k →
      ¬ "rollback yapıldı".data.take k
        <:+ "KRİTİK HATA! Rollback sırasında sembolik bağ değiştirilemedi: ".data := by
    decide
  exact hall k hk h0

/-- The text of a rollback link-set error starts with "KRİTİK HATA!". -/
theorem rollback_set_text_critical (t : String) :
    strHasPrefix ("KRİTİK HATA! Rollback sırasında sembolik bağ değiştirilemedi: " ++ t)
      "KRİTİK HATA!" := by
  have h : strHasPrefix "KRİTİK HATA! Rollback sırasında sembolik bağ değiştirilemedi: "
      "KRİTİK HATA!" := by decide
  unfold strHasPrefix at *
  rw [String.data_append]
  exact h.trans (List.prefix_append _ _)

/-- C23 (rollback link-set failure).  Known version `K` non-empty, remote tag `R`
different from `K`; the link read hands back a non-empty target `T0`; the fetch, the
validation and the switch succeed, the reload fails, and the rollback `Set` back
to `T0` fails with `errRollback`.  Then `RunOnce` returns an error that wraps
`errRollback` and whose text starts with "KRİTİK HATA!"; this error and its text
differ from every rollback-succeeded error, and the text contains
"rollback yapıldı" only if the text of `errRollback` does; the trace holds two
`Run` calls (validation and the one reload) and two `Set` calls; and
`lastKnownETag` stays `K`. -/
theorem RunOnce_rollback_set_failure {σ : Type} (c : Collab σ) (cfg : Config)
    (activeModelPath K R T0 : String) (errGet : Option GoError) (err errRollback : GoError)
    (w0 w1 w2 w3 w4 w5 w6 w7 : σ)
    (hK : K ≠ "") (hR : R ≠ K) (hT0 : T0 ≠ "")
    (hHead : c.HeadObject w0 cfg.S3Bucket cfg.S3Key = ((R, none), w1))
    (hGet : c.Get w1 activeModelPath = ((T0, errGet), w2))
    (hDownload : c.DownloadObject w2 cfg.S3Bucket cfg.S3Key (newModelDownloadPath R) = (none, w3))
    (hTest : c.Run w3 cfg.DeployScriptPath ["--test", newModelDownloadPath R] = (none, w4))
    (hSet : c.Set w4 (newModelDownloadPath R) activeModelPath = (none, w5))
    (hReload : c.Run w5 cfg.DeployScriptPath ["--reload"] = (some err, w6))
    (hSetOld : c.Set w6 T0 activeModelPath = (some errRollback, w7)) :
    (RunOnce c ⟨cfg, K, activeModelPath⟩ w0).err
      = some (Errorf "KRİTİK HATA! Rollback sırasında sembolik bağ değiştirilemedi: "
          errRollback) ∧
    (Errorf "KRİTİK HATA! Rollback sırasında sembolik bağ değiştirilemedi: "
      errRollback).Unwrap = some errRollback ∧
    strHasPrefix (Errorf "KRİTİK HATA! Rollback sırasında sembolik bağ değiştirilemedi: "
      errRollback).Error "KRİTİK HATA!" ∧
    (∀ e : GoError,
      Errorf "KRİTİK HATA! Rollback sırasında sembolik bağ değiştirilemedi: " errRollback
        ≠ Errorf "dağıtım hatası (rollback yapıldı): " e ∧
      (Errorf "KRİTİK HATA! Rollback sırasında sembolik bağ değiştirilemedi: "
        errRollback).Error ≠ (Errorf "dağıtım hatası (rollback yapıldı): " e).Error) ∧
    (¬ strContains errRollback.Error "rollback yapıldı" →
      ¬ strContains (Errorf "KRİTİK HATA! Rollback sırasında sembolik bağ değiştirilemedi: "
        errRollback).Error "rollback yapıldı") ∧
    runCalls (RunOnce c ⟨cfg, K, activeModelPath⟩ w0).trace
      = [(cfg.DeployScriptPath, ["--test", newModelDownloadPath R]),
         (cfg.DeployScriptPath, ["--reload"])] ∧
    setCalls (RunOnce c ⟨cfg, K, activeModelPath⟩ w0).trace
      = [(newModelDownloadPath R, activeModelPath), (T0, activeModelPath)] ∧
    (RunOnce c ⟨cfg, K, activeModelPath⟩ w0).poller.lastKnownETag = K := by
  have hcrit := rollback_set_text_critical errRollback.Error
  have htext : ∀ e : GoError,
      (Errorf "KRİTİK HATA! Rollback sırasında sembolik bağ değiştirilemedi: "
        errRollback).Error ≠ (Errorf "dağıtım hatası (rollback yapıldı): " e).Error := by
    intro e h
    rw [Errorf_Error, Errorf_Error] at h
    rw [h] at hcrit
    exact rollback_done_text_not_critical e.Error hcrit
  refine ⟨?_, rfl, hcrit, fun e => ⟨fun h => htext e (congrArg GoError.Error h), htext e⟩,
    rollback_set_text_no_rollback_done errRollback.Error, ?_, ?_, ?_⟩
  · simp [RunOnce, hHead, hGet, hDownload, hTest, hSet, hReload, hSetOld, hK, hR, hT0]
  · simp [RunOnce, hHead, hGet, hDownload, hTest, hSet, hReload, hSetOld, hK, hR, hT0, runCalls]
  · simp [RunOnce, hHead, hGet, hDownload, hTest, hSet, hReload, hSetOld, hK, hR, hT0, setCalls]
  · simp [RunOnce, hHead, hGet, hDownload, hTest, hSet, hReload, hSetOld, hK, hR, hT0]

/-- Witness of C23: the Poller of the rollout tests over `rollbackLinkFailureScript`. -/
theorem RunOnce_rollback_set_failure_witness :
    ("v1-old-model" ≠ "" ∧ "v2-new-model" ≠ "v1-old-model" ∧
      "/var/lib/models/model-v1.bin" ≠ "") ∧
    (RunOnce scriptCollab testPoller rollbackLinkFailureScript).err
      = some (Errorf "KRİTİK HATA! Rollback sırasında sembolik bağ değiştirilemedi: "
          (GoError.msg "symlink: read-only file system")) ∧
    (Errorf "KRİTİK HATA! Rollback sırasında sembolik bağ değiştirilemedi: "
      (GoError.msg "symlink: read-only file system")).Unwrap
      = some (GoError.msg "symlink: read-only file system") ∧
    strHasPrefix (Errorf "KRİTİK HATA! Rollback sırasında sembolik bağ değiştirilemedi: "
      (GoError.msg "symlink: read-only file system")).Error "KRİTİK HATA!" ∧
    (∀ e : GoError,
      Errorf "KRİTİK HATA! Rollback sırasında sembolik bağ değiştirilemedi: "
          (GoError.msg "symlink: read-only file system")
        ≠ Errorf "dağıtım hatası (rollback yapıldı): " e ∧
      (Errorf "KRİTİK HATA! Rollback sırasında sembolik bağ değiştirilemedi: "
        (GoError.msg "symlink: read-only file system")).Error
        ≠ (Errorf "dağıtım hatası (rollback yapıldı): " e).Error) ∧
    (¬ strContains (GoError.msg "symlink: read-only file system").Error "rollback yapıldı" →
      ¬ strContains (Errorf "KRİTİK HATA! Rollback sırasında sembolik bağ değiştirilemedi: "
        (GoError.msg "symlink: read-only file system")).Error "rollback yapıldı") ∧
    runCalls (RunOnce scriptCollab testPoller rollbackLinkFailureScript).trace
      = [("deploy.sh", ["--test", newModelDownloadPath "v2-new-model"]),
         ("deploy.sh", ["--reload"])] ∧
    setCalls (RunOnce scriptCollab testPoller rollbackLinkFailureScript).trace
      = [(newModelDownloadPath "v2-new-model", activeModelLink),
         ("/var/lib/models/model-v1.bin", activeModelLink)] ∧
    (RunOnce scriptCollab testPoller rollbackLinkFailureScript).poller.lastKnownETag
      = "v1-old-model" :=
  ⟨⟨by decide, by decide, by decide⟩,
   RunOnce_rollback_set_failure scriptCollab mockCfg activeModelLink "v1-old-model"
    "v2-new-model" "/var/lib/models/model-v1.bin" _ _ _ rollbackLinkFailureScript
    _ _ _ _ _ _ _ (by decide) (by decide) (by decide) rfl rfl rfl rfl rfl rfl rfl⟩

/-! ## Rollback unavailable after a failed link read -/

/-- The real link manager hands back the empty string with every error of its
`Get`: `os.Readlink` returns no target when it fails. -/
theorem RealLinker_Get_error_empty (faultReadlink : Option GoError) (fs : FS)
    (linkName : String) (h : (RealLinker.Get faultReadlink fs linkName).2 ≠ none) :
    (RealLinker.Get faultReadlink fs linkName).1 = "" := by
  revert h
  unfold RealLinker.Get osReadlink
  cases faultReadlink with
  | some e => simp
  | none =>
    cases hn : fs linkName with
    | none => simp
    | some node => cases node <;> simp

/-- The link double of the tests never fails its `Get`. -/
theorem MockLinker_Get_no_error (m : MockLinker) (linkName : String) :
    (m.Get linkName).1.2 = none := rfl

/-- C8 (rollback unavailable).  Known version `K` non-empty, remote tag `R`
different from `K`; the link read fails with `errGet`, handing back the empty
string as every failed read of a link manager of the repository does; the fetch,
the validation and the switch succeed and the reload fails.  Then `RunOnce`
returns the rollback-unavailable error, which differs as a value and in its text
from the rollback-succeeded error and from both critical rollback errors; the trace
ends with the failed reload, so there is no second `Set` call and no second reload
and the last `Set` is the one to the staging path; and `lastKnownETag` stays `K`. -/
theorem RunOnce_rollback_unavailable_after_failed_read {σ : Type} (c : Collab σ)
    (cfg : Config) (activeModelPath K R : String) (errGet err : GoError)
    (w0 w1 w2 w3 w4 w5 w6 : σ)
    (hK : K ≠ "") (hR : R ≠ K)
    (hHead : c.HeadObject w0 cfg.S3Bucket cfg.S3Key = ((R, none), w1))
    (hGet : c.Get w1 activeModelPath = (("", some errGet), w2))
    (hDownload : c.DownloadObject w2 cfg.S3Bucket cfg.S3Key (newModelDownloadPath R) = (none, w3))
    (hTest : c.Run w3 cfg.DeployScriptPath ["--test", newModelDownloadPath R] = (none, w4))
    (hSet : c.Set w4 (newModelDownloadPath R) activeModelPath = (none, w5))
    (hReload : c.Run w5 cfg.DeployScriptPath ["--reload"] = (some err, w6)) :
    (RunOnce c ⟨cfg, K, activeModelPath⟩ w0).err
      = some (GoError.msg "ROLLBACK BAŞARISIZ: Eski modelin yolu bilinmiyor") ∧
    (∀ e : GoError,
      (GoError.msg "ROLLBACK BAŞARISIZ: Eski modelin yolu bilinmiyor"
          ≠ Errorf "dağıtım hatası (rollback yapıldı): " e ∧
        (GoError.msg "ROLLBACK BAŞARISIZ: Eski modelin yolu bilinmiyor").Error
          ≠ (Errorf "dağıtım hatası (rollback yapıldı): " e).Error) ∧
      (GoError.msg "ROLLBACK BAŞARISIZ: Eski modelin yolu bilinmiyor"
          ≠ Errorf "KRİTİK HATA! Rollback sırasında sembolik bağ değiştirilemedi: " e ∧
        (GoError.msg "ROLLBACK BAŞARISIZ: Eski modelin yolu bilinmiyor").Error
          ≠ (Errorf "KRİTİK HATA! Rollback sırasında sembolik bağ değiştirilemedi: " e).Error) ∧
      (GoError.msg "ROLLBACK BAŞARISIZ: Eski modelin yolu bilinmiyor"
          ≠ Errorf "KRİTİK HATA! Rollback başarılı ancak servis eski modelle de başlatılamadı: "
              e ∧
        (GoError.msg "ROLLBACK BAŞARISIZ: Eski modelin yolu bilinmiyor").Error
          ≠ (Errorf "KRİTİK HATA! Rollback başarılı ancak servis eski modelle de başlatılamadı: "
              e).Error)) ∧
    (RunOnce c ⟨cfg, K, activeModelPath⟩ w0).trace
      = [Event.HeadObject cfg.S3Bucket cfg.S3Key, Event.Get activeModelPath,
         Event.DownloadObject cfg.S3Bucket cfg.S3Key (newModelDownloadPath R),
         Event.Run cfg.DeployScriptPath ["--test", newModelDownloadPath R],
         Event.Set (newModelDownloadPath R) activeModelPath,
         Event.Run cfg.DeployScriptPath ["--reload"]] ∧
    setCalls (RunOnce c ⟨cfg, K, activeModelPath⟩ w0).trace
      = [(newModelDownloadPath R, activeModelPath)] ∧
    runCalls (RunOnce c ⟨cfg, K, activeModelPath⟩ w0).trace
      = [(cfg.DeployScriptPath, ["--test", newModelDownloadPath R]),
         (cfg.DeployScriptPath, ["--reload"])] ∧
    (RunOnce c ⟨cfg, K, activeModelPath⟩ w0).poller.lastKnownETag = K := by
  have hown : strHasPrefix
      (GoError.msg "ROLLBACK BAŞARISIZ: Eski modelin yolu bilinmiyor").Error
      "ROLLBACK BAŞARISIZ" := by decide
  have hother : ∀ (lit : String) (e : GoError),
      "ROLLBACK BAŞARISIZ".data.length ≤ lit.data.length →
      ¬ strHasPrefix lit "ROLLBACK BAŞARISIZ" →
      (GoError.msg "ROLLBACK BAŞARISIZ: Eski modelin yolu bilinmiyor" ≠ Errorf lit e ∧
        (GoError.msg "ROLLBACK BAŞARISIZ: Eski modelin yolu bilinmiyor").Error
          ≠ (Errorf lit e).Error) := by
    intro lit e hlen hlit
    have htext : (GoError.msg "ROLLBACK BAŞARISIZ: Eski modelin yolu bilinmiyor").Error
        ≠ (Errorf lit e).Error := by
      intro h
      rw [h, Errorf_Error] at hown
      exact not_strHasPrefix_append lit e.Error _ hlen hlit hown
    exact ⟨fun h => htext (congrArg GoError.Error h), htext⟩
  refine ⟨?_, fun e => ⟨hother _ e (by decide) (by decide), hother _ e (by decide) (by decide),
    hother _ e (by decide) (by decide)⟩, ?_, ?_, ?_, ?_⟩
  · simp [RunOnce, hHead, hGet, hDownload, hTest, hSet, hReload, hK, hR]
  · simp [RunOnce, hHead, hGet, hDownload, hTest, hSet, hReload, hK, hR]
  · simp [RunOnce, hHead, hGet, hDownload, hTest, hSet, hReload, hK, hR, setCalls]
  · simp [RunOnce, hHead, hGet, hDownload, hTest, hSet, hReload, hK, hR, runCalls]
  · simp [RunOnce, hHead, hGet, hDownload, hTest, hSet, hReload, hK, hR]

/-- Witness of C8: the real link manager on a filesystem without the link, so that
its `Get` fails, and a script whose first reload fails.  The link ends at the
staging path of the new tag. -/
theorem RunOnce_rollback_unavailable_after_failed_read_witness :
    ("v1-old-model" ≠ "" ∧ "v2-new-model" ≠ "v1-old-model") ∧
    RealLinker.Get none emptyFS activeModelLink
      = ("", some (GoError.pathError "readlink" activeModelLink ENOENT)) ∧
    (RunOnce realLinkerCollab testPoller noLinkYetWorld).world.fs activeModelLink
      = some (Node.symlink (newModelDownloadPath "v2-new-model")) ∧
    (RunOnce realLinkerCollab testPoller noLinkYetWorld).err
      = some (GoError.msg "ROLLBACK BAŞARISIZ: Eski modelin yolu bilinmiyor") ∧
    (∀ e : GoError,
      (GoError.msg "ROLLBACK BAŞARISIZ: Eski modelin yolu bilinmiyor"
          ≠ Errorf "dağıtım hatası (rollback yapıldı): " e ∧
        (GoError.msg "ROLLBACK BAŞARISIZ: Eski modelin yolu bilinmiyor").Error
          ≠ (Errorf "dağıtım hatası (rollback yapıldı): " e).Error) ∧
      (GoError.msg "ROLLBACK BAŞARISIZ: Eski modelin yolu bilinmiyor"
          ≠ Errorf "KRİTİK HATA! Rollback sırasında sembolik bağ değiştirilemedi: " e ∧
        (GoError.msg "ROLLBACK BAŞARISIZ: Eski modelin yolu bilinmiyor").Error
          ≠ (Errorf "KRİTİK HATA! Rollback sırasında sembolik bağ değiştirilemedi: " e).Error) ∧
      (GoError.msg "ROLLBACK BAŞARISIZ: Eski modelin yolu bilinmiyor"
          ≠ Errorf "KRİTİK HATA! Rollback başarılı ancak servis eski modelle de başlatılamadı: "
              e ∧
        (GoError.msg "ROLLBACK BAŞARISIZ: Eski modelin yolu bilinmiyor").Error
          ≠ (Errorf "KRİTİK HATA! Rollback başarılı ancak servis eski modelle de başlatılamadı: "
              e).Error)) ∧
    (RunOnce realLinkerCollab testPoller noLinkYetWorld).trace
      = [Event.HeadObject "test-bucket" "model.bin", Event.Get activeModelLink,
         Event.DownloadObject "test-bucket" "model.bin" (newModelDownloadPath "v2-new-model"),
         Event.Run "deploy.sh" ["--test", newModelDownloadPath "v2-new-model"],
         Event.Set (newModelDownloadPath "v2-new-model") activeModelLink,
         Event.Run "deploy.sh" ["--reload"]] ∧
    setCalls (RunOnce realLinkerCollab testPoller noLinkYetWorld).trace
      = [(newModelDownloadPath "v2-new-model", activeModelLink)] ∧
    runCalls (RunOnce realLinkerCollab testPoller noLinkYetWorld).trace
      = [("deploy.sh", ["--test", newModelDownloadPath "v2-new-model"]),
         ("deploy.sh", ["--reload"])] ∧
    (RunOnce realLinkerCollab testPoller noLinkYetWorld).poller.lastKnownETag
      = "v1-old-model" :=
  ⟨⟨by decide, by decide⟩, by decide, by decide,
   RunOnce_rollback_unavailable_after_failed_read realLinkerCollab mockCfg activeModelLink
    "v1-old-model" "v2-new-model" _ _ noLinkYetWorld _ _ _ _ _ _ (by decide) (by decide)
    rfl rfl rfl rfl rfl rfl⟩

end EdgeSync
